import Mathlib

/-
Verification of the query-processing core of the web-semantique backend.

The Python source is embedded shallowly: strings are `List Char`, Python
regular-expression operations are translated to explicit scanning functions
with the same semantics on the inputs the service handles (ASCII whitespace
and case folding; Python's `\s`, `.upper()`, `.lower()` agree with these on
ASCII), wall-clock time is `ℚ`, the triple store is a function from attempt
number to an outcome, and Python exceptions become `Except` / explicit error
fields.  Each definition mirrors one function of the source; the claims are
settled as theorems below the definitions.
-/

/-! ## Characters and Python string primitives -/

/-- Python whitespace (`str.strip`, `\s`) restricted to ASCII. -/
def isPySpace (c : Char) : Bool :=
  c == ' ' || c == '\t' || c == '\n' || c == '\r' || c == '\x0B' || c == '\x0C'

/-- Embedding of `query.replace('\x00', '')` (sparql_service.py line 216). -/
def removeNulls (l : List Char) : List Char := l.filter (fun c => c != '\x00')

/-- Embedding of Python `str.strip()` for ASCII whitespace. -/
def pyStrip (l : List Char) : List Char :=
  ((l.dropWhile isPySpace).reverse.dropWhile isPySpace).reverse

/-- Worker for `re.sub(r'\s+', ' ', s)`: `prevSpace` records whether the
previous character belonged to a whitespace run already replaced by `' '`. -/
def collapseWSAux : Bool → List Char → List Char
  | _, [] => []
  | prevSpace, c :: rest =>
    if isPySpace c then
      if prevSpace then collapseWSAux true rest
      else ' ' :: collapseWSAux true rest
    else c :: collapseWSAux false rest

/-- Embedding of `re.sub(r'\s+', ' ', s)` (sparql_service.py line 219). -/
def collapseWS (l : List Char) : List Char := collapseWSAux false l

/-- Worker for `re.sub(r'#[^\n]*', '', s)`: the flag records whether the scan
is inside a comment match (a `#` has been seen and no `'\n'` yet). -/
def removeCommentsAux : Bool → List Char → List Char
  | _, [] => []
  | true, c :: rest =>
    if c == '\n' then c :: removeCommentsAux false rest
    else removeCommentsAux true rest
  | false, c :: rest =>
    if c == '#' then removeCommentsAux true rest
    else c :: removeCommentsAux false rest

/-- Embedding of `re.sub(r'#[^\n]*', '', s)` (sparql_service.py line 222). -/
def removeComments (l : List Char) : List Char := removeCommentsAux false l

/-- Embedding of `SPARQLQueryService.sanitize_query_input`
(sparql_service.py lines 202-224): drop null bytes, strip and collapse
whitespace runs to single spaces, then remove `#`-led comments. -/
def sanitize_query_input (q : List Char) : List Char :=
  if q.isEmpty then []
  else removeComments (collapseWS (pyStrip (removeNulls q)))

/-! ## Lemmas about the sanitizer -/

theorem mem_dropWhile_of_mem {p : Char → Bool} {l : List Char} {c : Char}
    (h : c ∈ l.dropWhile p) : c ∈ l := by
  induction l with
  | nil => simpa using h
  | cons a t ih =>
    cases hpa : p a with
    | true => simp only [List.dropWhile_cons, hpa, if_true] at h; exact List.mem_cons_of_mem _ (ih h)
    | false => simpa [List.dropWhile_cons, hpa] using h

theorem mem_pyStrip_of_mem {l : List Char} {c : Char} (h : c ∈ pyStrip l) : c ∈ l := by
  unfold pyStrip at h
  rw [List.mem_reverse] at h
  have h1 := mem_dropWhile_of_mem h
  rw [List.mem_reverse] at h1
  exact mem_dropWhile_of_mem h1

theorem mem_collapseWSAux_of_mem {l : List Char} {c : Char} :
    ∀ b, c ∈ collapseWSAux b l → c = ' ' ∨ c ∈ l := by
  induction l with
  | nil => intro b h; simp [collapseWSAux] at h
  | cons a t ih =>
    intro b h
    by_cases ha : isPySpace a = true
    · cases b with
      | true =>
        simp only [collapseWSAux, ha, if_true] at h
        rcases ih true h with h' | h'
        · exact Or.inl h'
        · exact Or.inr (List.mem_cons_of_mem _ h')
      | false =>
        simp only [collapseWSAux, ha, if_true] at h
        rcases List.mem_cons.1 h with h' | h'
        · exact Or.inl h'
        · rcases ih true h' with h'' | h''
          · exact Or.inl h''
          · exact Or.inr (List.mem_cons_of_mem _ h'')
    · simp only [collapseWSAux, ha] at h
      rcases List.mem_cons.1 h with h' | h'
      · exact Or.inr (h' ▸ List.mem_cons_self a t)
      · rcases ih false h' with h'' | h''
        · exact Or.inl h''
        · exact Or.inr (List.mem_cons_of_mem _ h'')

/-- Every whitespace character emitted by the collapse pass is a space. -/
theorem collapseWSAux_ws_eq_space {l : List Char} {c : Char} :
    ∀ b, c ∈ collapseWSAux b l → isPySpace c = true → c = ' ' := by
  induction l with
  | nil => intro b h; simp [collapseWSAux] at h
  | cons a t ih =>
    intro b h hws
    by_cases ha : isPySpace a = true
    · cases b with
      | true =>
        simp only [collapseWSAux, ha, if_true] at h
        exact ih true h hws
      | false =>
        simp only [collapseWSAux, ha, if_true] at h
        rcases List.mem_cons.1 h with h' | h'
        · exact h'
        · exact ih true h' hws
    · simp only [collapseWSAux, ha] at h
      rcases List.mem_cons.1 h with h' | h'
      · subst h'; simp [ha] at hws
      · exact ih false h' hws

theorem hash_not_mem_removeCommentsAux (l : List Char) :
    ∀ b, '#' ∉ removeCommentsAux b l := by
  induction l with
  | nil => intro b; simp [removeCommentsAux]
  | cons a t ih =>
    intro b h
    cases b with
    | true =>
      cases ha : a == '\n' with
      | true =>
        have ha' : a = '\n' := by simpa using ha
        simp only [removeCommentsAux, ha, if_true] at h
        rcases List.mem_cons.1 h with h' | h'
        · rw [ha'] at h'; exact absurd h' (by decide)
        · exact ih false h'
      | false =>
        simp only [removeCommentsAux, ha, if_false] at h
        exact ih true h
    | false =>
      cases ha : a == '#' with
      | true =>
        simp only [removeCommentsAux, ha, if_true] at h
        exact ih true h
      | false =>
        simp only [removeCommentsAux, ha, if_false] at h
        rcases List.mem_cons.1 h with h' | h'
        · rw [h'] at ha; simp at ha
        · exact ih false h'

/-- In comment mode, a newline-free tail is dropped completely. -/
theorem removeCommentsAux_true_of_no_newline {l : List Char} (h : '\n' ∉ l) :
    removeCommentsAux true l = [] := by
  induction l with
  | nil => rfl
  | cons a t ih =>
    have ha : (a == '\n') = false := by
      simp only [beq_eq_false_iff_ne, ne_eq]
      exact fun hc => h (hc ▸ List.mem_cons_self a t)
    simp only [removeCommentsAux, ha, if_false]
    exact ih (fun hc => h (List.mem_cons_of_mem _ hc))

/-- On a newline-free string, comment removal truncates at the first `#`. -/
theorem removeComments_eq_takeWhile_of_no_newline {l : List Char} (h : '\n' ∉ l) :
    removeComments l = l.takeWhile (fun c => c != '#') := by
  unfold removeComments
  induction l with
  | nil => rfl
  | cons a t ih =>
    cases ha : a == '#' with
    | true =>
      simp only [removeCommentsAux, ha, if_true, List.takeWhile_cons, bne, ha, Bool.not_true]
      rw [removeCommentsAux_true_of_no_newline (fun hc => h (List.mem_cons_of_mem _ hc))]
      simp
    | false =>
      have hb : (a != '#') = true := by simp [bne, ha]
      simp only [removeCommentsAux, ha, Bool.false_eq_true, if_false, List.takeWhile_cons, hb,
        if_true]
      rw [ih (fun hc => h (List.mem_cons_of_mem _ hc))]

theorem removeCommentsAux_id_of_no_hash {l : List Char} (h : '#' ∉ l) :
    removeCommentsAux false l = l := by
  induction l with
  | nil => rfl
  | cons a t ih =>
    have ha : (a == '#') = false := by
      simp only [beq_eq_false_iff_ne, ne_eq]
      exact fun hc => h (hc ▸ List.mem_cons_self a t)
    simp only [removeCommentsAux, ha, Bool.false_eq_true, if_false]
    rw [ih (fun hc => h (List.mem_cons_of_mem _ hc))]

/-! ## Normal forms of the sanitizer -/

/-- A string is "collapsed" (relative to the flag of `collapseWSAux`) when all
its whitespace characters are single spaces not preceded by another space. -/
def isCollapsedAux : Bool → List Char → Bool
  | _, [] => true
  | prevSpace, c :: rest =>
    if isPySpace c then (!prevSpace) && (c == ' ') && isCollapsedAux true rest
    else isCollapsedAux false rest

theorem isCollapsedAux_collapseWSAux (l : List Char) :
    ∀ b, isCollapsedAux b (collapseWSAux b l) = true := by
  induction l with
  | nil => intro b; rfl
  | cons a t ih =>
    intro b
    by_cases ha : isPySpace a = true
    · cases b with
      | true => simp only [collapseWSAux, ha, if_true]; exact ih true
      | false =>
        simp only [collapseWSAux, ha, if_true, isCollapsedAux]
        simp only [show isPySpace ' ' = true from rfl, if_true]
        simpa using ih true
    · simp only [collapseWSAux, ha, if_false, isCollapsedAux, ha]
      exact ih false

theorem collapseWSAux_id_of_isCollapsed (l : List Char) :
    ∀ b, isCollapsedAux b l = true → collapseWSAux b l = l := by
  induction l with
  | nil => intro b _; rfl
  | cons a t ih =>
    intro b h
    by_cases ha : isPySpace a = true
    · simp only [isCollapsedAux, if_pos ha, Bool.and_assoc, Bool.and_eq_true,
        Bool.not_eq_true', beq_iff_eq] at h
      obtain ⟨hb, hsp, ht⟩ := h
      subst hb; subst hsp
      simp only [collapseWSAux, if_pos ha, Bool.false_eq_true, if_false]
      rw [ih true ht]
    · simp only [isCollapsedAux, if_neg ha] at h
      simp only [collapseWSAux, if_neg ha]
      rw [ih false h]

/-- The head of the string, when present, is not whitespace. -/
def headNoWS (l : List Char) : Prop :=
  ∀ c, l.head? = some c → isPySpace c = false

/-- The last character of the string, when present, is not whitespace. -/
def lastNoWS (l : List Char) : Prop :=
  ∀ c, l.getLast? = some c → isPySpace c = false

theorem headNoWS_dropWhile (l : List Char) : headNoWS (l.dropWhile isPySpace) := by
  induction l with
  | nil => intro c h; simp at h
  | cons a t ih =>
    intro c h
    by_cases ha : isPySpace a = true
    · rw [List.dropWhile_cons, if_pos ha] at h
      exact ih c h
    · rw [List.dropWhile_cons, if_neg ha] at h
      simp only [List.head?_cons, Option.some.injEq] at h
      subst h
      simpa using ha

theorem dropWhile_eq_self_of_headNoWS {l : List Char} (h : headNoWS l) :
    l.dropWhile isPySpace = l := by
  cases l with
  | nil => rfl
  | cons a t =>
    have := h a (by simp)
    rw [List.dropWhile_cons, if_neg (by simp [this])]

theorem headNoWS_pyStrip (l : List Char) : headNoWS (pyStrip l) := by
  intro c h
  unfold pyStrip at h
  set A := l.dropWhile isPySpace with hA
  obtain ⟨u, hu⟩ := List.dropWhile_suffix (l := A.reverse) isPySpace
  have hAeq : A = (A.reverse.dropWhile isPySpace).reverse ++ u.reverse := by
    have := congrArg List.reverse hu
    simpa [List.reverse_append] using this.symm
  have hhead : A.head? = some c := by
    rcases hrev : (A.reverse.dropWhile isPySpace).reverse with _ | ⟨x, xs⟩
    · rw [hrev] at h; simp at h
    · rw [hrev] at h
      simp only [List.head?_cons, Option.some.injEq] at h
      subst h
      rw [hAeq, hrev]
      simp
  exact headNoWS_dropWhile l c hhead

theorem lastNoWS_pyStrip (l : List Char) : lastNoWS (pyStrip l) := by
  intro c h
  unfold pyStrip at h
  rw [List.getLast?_reverse] at h
  exact headNoWS_dropWhile (l.dropWhile isPySpace).reverse c h

theorem headNoWS_collapseWSAux {l : List Char} (h : headNoWS l) :
    headNoWS (collapseWSAux false l) := by
  cases l with
  | nil => intro c hc; simp [collapseWSAux] at hc
  | cons a t =>
    have ha := h a (by simp)
    intro c hc
    simp only [collapseWSAux, ha, Bool.false_eq_true, if_false, List.head?_cons,
      Option.some.injEq] at hc
    subst hc
    exact ha

theorem getLast?_cons_of_ne_nil {a : Char} {l : List Char} (h : l ≠ []) :
    (a :: l).getLast? = l.getLast? := by
  cases l with
  | nil => exact absurd rfl h
  | cons b t => exact List.getLast?_cons_cons

theorem lastNoWS_collapseWSAux {l : List Char} (h : lastNoWS l) :
    ∀ b, lastNoWS (collapseWSAux b l) ∧ (l ≠ [] → collapseWSAux b l ≠ []) := by
  induction l with
  | nil =>
    intro b
    exact ⟨fun c hc => by simp [collapseWSAux] at hc, fun hne => absurd rfl hne⟩
  | cons a t ih =>
    intro b
    cases t with
    | nil =>
      have ha := h a (by simp)
      have hstep : collapseWSAux b [a] = [a] := by simp [collapseWSAux, ha]
      refine ⟨?_, ?_⟩
      · intro c hc
        rw [hstep] at hc
        simp only [List.getLast?_singleton, Option.some.injEq] at hc
        subst hc; exact ha
      · intro _; rw [hstep]; simp
    | cons a2 t2 =>
      have ht : lastNoWS (a2 :: t2) := fun c hc =>
        h c (by rw [List.getLast?_cons_cons]; exact hc)
      by_cases ha : isPySpace a = true
      · have hX := ih ht true
        have hXne := hX.2 (by simp)
        cases b with
        | true =>
          have hstep : collapseWSAux true (a :: a2 :: t2) = collapseWSAux true (a2 :: t2) := by
            simp [collapseWSAux, ha]
          rw [hstep]
          exact ⟨hX.1, fun _ => hXne⟩
        | false =>
          have hstep :
              collapseWSAux false (a :: a2 :: t2) = ' ' :: collapseWSAux true (a2 :: t2) := by
            simp [collapseWSAux, ha]
          rw [hstep]
          refine ⟨?_, fun _ => by simp⟩
          intro c hc
          rw [getLast?_cons_of_ne_nil hXne] at hc
          exact hX.1 c hc
      · have hX := ih ht false
        have hXne := hX.2 (by simp)
        have hstep : collapseWSAux b (a :: a2 :: t2) = a :: collapseWSAux false (a2 :: t2) := by
          simp [collapseWSAux, ha]
        rw [hstep]
        refine ⟨?_, fun _ => by simp⟩
        intro c hc
        rw [getLast?_cons_of_ne_nil hXne] at hc
        exact hX.1 c hc

/-- `pyStrip` is the identity on a string whose ends carry no whitespace. -/
theorem pyStrip_eq_self {l : List Char} (h1 : headNoWS l) (h2 : lastNoWS l) :
    pyStrip l = l := by
  unfold pyStrip
  rw [dropWhile_eq_self_of_headNoWS h1]
  have hrev : headNoWS l.reverse := by
    intro c hc
    rw [List.head?_reverse] at hc
    exact h2 c hc
  rw [dropWhile_eq_self_of_headNoWS hrev, List.reverse_reverse]

/-! ## Claims C2 and C9: the sanitizer -/

theorem mem_removeCommentsAux_of_mem {l : List Char} {c : Char} :
    ∀ b, c ∈ removeCommentsAux b l → c ∈ l := by
  induction l with
  | nil => intro b h; simp [removeCommentsAux] at h
  | cons a t ih =>
    intro b h
    cases b with
    | true =>
      cases ha : a == '\n' with
      | true =>
        simp only [removeCommentsAux, ha, if_true] at h
        rcases List.mem_cons.1 h with h' | h'
        · exact h' ▸ List.mem_cons_self a t
        · exact List.mem_cons_of_mem _ (ih false h')
      | false =>
        simp only [removeCommentsAux, ha, Bool.false_eq_true, if_false] at h
        exact List.mem_cons_of_mem _ (ih true h)
    | false =>
      cases ha : a == '#' with
      | true =>
        simp only [removeCommentsAux, ha, if_true] at h
        exact List.mem_cons_of_mem _ (ih true h)
      | false =>
        simp only [removeCommentsAux, ha, Bool.false_eq_true, if_false] at h
        rcases List.mem_cons.1 h with h' | h'
        · exact h' ▸ List.mem_cons_self a t
        · exact List.mem_cons_of_mem _ (ih false h')

theorem null_not_mem_sanitize (q : List Char) : '\x00' ∉ sanitize_query_input q := by
  intro h
  unfold sanitize_query_input at h
  by_cases hq : q.isEmpty
  · rw [if_pos hq] at h; simp at h
  · rw [if_neg hq] at h
    have h1 := mem_removeCommentsAux_of_mem false h
    rcases mem_collapseWSAux_of_mem false h1 with h2 | h2
    · exact absurd h2 (by decide)
    · have h3 := mem_pyStrip_of_mem h2
      unfold removeNulls at h3
      rw [List.mem_filter] at h3
      simp at h3

theorem sanitize_idempotent_of_no_hash {q : List Char} (h : '#' ∉ q) :
    sanitize_query_input (sanitize_query_input q) = sanitize_query_input q := by
  by_cases hq : q.isEmpty
  · have hq' : q = [] := List.isEmpty_iff.1 hq
    subst hq'
    rfl
  · have hx_nohash : '#' ∉ removeNulls q := by
      intro hc
      unfold removeNulls at hc
      rw [List.mem_filter] at hc
      exact h hc.1
    have hA_nohash : '#' ∉ pyStrip (removeNulls q) :=
      fun hc => hx_nohash (mem_pyStrip_of_mem hc)
    have hr_nohash : '#' ∉ collapseWS (pyStrip (removeNulls q)) := by
      intro hc
      rcases mem_collapseWSAux_of_mem false hc with h' | h'
      · exact absurd h' (by decide)
      · exact hA_nohash h'
    have hsan : sanitize_query_input q = collapseWS (pyStrip (removeNulls q)) := by
      unfold sanitize_query_input
      rw [if_neg hq]
      exact removeCommentsAux_id_of_no_hash hr_nohash
    rw [hsan]
    by_cases hr : (collapseWS (pyStrip (removeNulls q))).isEmpty
    · unfold sanitize_query_input
      rw [if_pos hr]
      exact (List.isEmpty_iff.1 hr).symm
    · unfold sanitize_query_input
      rw [if_neg hr]
      have hrnull : removeNulls (collapseWS (pyStrip (removeNulls q)))
          = collapseWS (pyStrip (removeNulls q)) := by
        unfold removeNulls
        rw [List.filter_eq_self]
        intro c hc
        rcases mem_collapseWSAux_of_mem false hc with h' | h'
        · subst h'; decide
        · have h'' := mem_pyStrip_of_mem h'
          unfold removeNulls at h''
          rw [List.mem_filter] at h''
          exact h''.2
      rw [hrnull]
      have hhead : headNoWS (collapseWS (pyStrip (removeNulls q))) :=
        headNoWS_collapseWSAux (headNoWS_pyStrip (removeNulls q))
      have hlast : lastNoWS (collapseWS (pyStrip (removeNulls q))) :=
        (lastNoWS_collapseWSAux (lastNoWS_pyStrip (removeNulls q)) false).1
      rw [pyStrip_eq_self hhead hlast]
      have hcoll : collapseWS (collapseWS (pyStrip (removeNulls q)))
          = collapseWS (pyStrip (removeNulls q)) :=
        collapseWSAux_id_of_isCollapsed _ false
          (isCollapsedAux_collapseWSAux (pyStrip (removeNulls q)) false)
      rw [hcoll]
      exact removeCommentsAux_id_of_no_hash hr_nohash

/-- Claim C2, counterexample: `sanitize` is not idempotent.  On the input
`"a #c"` the first pass yields `"a "` (comment removal leaves the space that
preceded the `#`), and the second pass strips that trailing space. -/
theorem C2_sanitize_not_idempotent :
    sanitize_query_input (sanitize_query_input ['a', ' ', '#', 'c'])
      ≠ sanitize_query_input ['a', ' ', '#', 'c'] := by decide

/-- Claim C2, amended: the output of `sanitize_query_input` never contains a
null byte, and `sanitize` is idempotent on every input that contains no `'#'`
character (on inputs with `'#'` the two sides may differ by one trailing
space, as the counterexample shows). -/
theorem C2_sanitize_amended :
    (∀ q : List Char, '\x00' ∉ sanitize_query_input q) ∧
    (∀ q : List Char, '#' ∉ q →
      sanitize_query_input (sanitize_query_input q) = sanitize_query_input q) :=
  ⟨null_not_mem_sanitize, fun _ h => sanitize_idempotent_of_no_hash h⟩

/-- Witness for C2 amended at the concrete hash-free query `"SELECT ?s"`. -/
theorem C2_sanitize_witness :
    '#' ∉ "SELECT ?s".data ∧
    sanitize_query_input (sanitize_query_input "SELECT ?s".data)
      = sanitize_query_input "SELECT ?s".data :=
  ⟨by decide, C2_sanitize_amended.2 "SELECT ?s".data (by decide)⟩

/-- Claim C9: after whitespace collapsing (which replaces every newline by a
space), the comment regex `#[^\n]*` matches from the first `#` to the end of
the string, so `sanitize_query_input` truncates the collapsed string at its
first `#` — IRIs included — and its output never contains `'#'`. -/
theorem C9_sanitize_truncates_at_hash (q : List Char) :
    sanitize_query_input q
      = (collapseWS (pyStrip (removeNulls q))).takeWhile (fun c => c != '#') ∧
    '#' ∉ sanitize_query_input q := by
  constructor
  · unfold sanitize_query_input
    by_cases hq : q.isEmpty
    · rw [if_pos hq]
      have hq' : q = [] := List.isEmpty_iff.1 hq
      subst hq'
      rfl
    · rw [if_neg hq]
      apply removeComments_eq_takeWhile_of_no_newline
      intro hmem
      have hsp := collapseWSAux_ws_eq_space false hmem (by decide)
      exact absurd hsp (by decide)
  · intro h
    unfold sanitize_query_input at h
    by_cases hq : q.isEmpty
    · rw [if_pos hq] at h; simp at h
    · rw [if_neg hq] at h
      exact hash_not_mem_removeCommentsAux _ false h

/-! ## Substring search and query-type classification -/

/-- Embedding of the Python substring test `needle in hay`. -/
def pyInStr (needle : List Char) : List Char → Bool
  | [] => needle.isEmpty
  | c :: t => needle.isPrefixOf (c :: t) || pyInStr needle t

theorem pyInStr_iff (needle : List Char) :
    ∀ hay, pyInStr needle hay = true ↔ needle <:+: hay := by
  intro hay
  induction hay with
  | nil => simp [pyInStr, List.isEmpty_iff, List.infix_nil]
  | cons c t ih =>
    simp only [pyInStr, Bool.or_eq_true]
    rw [List.isPrefixOf_iff_prefix, ih, List.infix_cons_iff]

/-- Embedding of Python `str.upper()` (ASCII). -/
def pyUpper (l : List Char) : List Char := l.map Char.toUpper

/-- Embedding of Python `str.lower()` (ASCII). -/
def pyLower (l : List Char) : List Char := l.map Char.toLower

/-- Embedding of `CustomQueryService._detect_query_type`
(custom_query_service.py lines 221-239): upper-case and strip the query, then
look for each keyword followed by one literal space, in the fixed order. -/
def detect_query_type (q : List Char) : String :=
  if pyInStr "SELECT ".data (pyStrip (pyUpper q)) then "SELECT"
  else if pyInStr "CONSTRUCT ".data (pyStrip (pyUpper q)) then "CONSTRUCT"
  else if pyInStr "ASK ".data (pyStrip (pyUpper q)) then "ASK"
  else if pyInStr "DESCRIBE ".data (pyStrip (pyUpper q)) then "DESCRIBE"
  else if pyInStr "INSERT ".data (pyStrip (pyUpper q)) then "INSERT"
  else if pyInStr "DELETE ".data (pyStrip (pyUpper q)) then "DELETE"
  else "UNKNOWN"

/-- Does the pattern `KW\s` match (case-insensitively) at the head of `l`?
Mirrors one position of `re.search(r'KW\s+', query, re.IGNORECASE)`. -/
def kwWSAt : List Char → List Char → Bool
  | [], [] => false
  | [], c :: _ => isPySpace c
  | _ :: _, [] => false
  | k :: ks, c :: cs => (c.toUpper == k) && kwWSAt ks cs

/-- Search everywhere in the string for the keyword followed by whitespace,
as `re.search(r'KW\s+', query, re.IGNORECASE)` does. -/
def kwThenWS (kw : List Char) : List Char → Bool
  | [] => false
  | c :: t => kwWSAt kw (c :: t) || kwThenWS kw t

/-- SPARQL query types (sparql_service.py lines 40-48). -/
inductive QueryType where
  | SELECT
  | CONSTRUCT
  | ASK
  | DESCRIBE
  | INSERT
  | DELETE
  | UPDATE
deriving DecidableEq

/-- Embedding of the query-type detection loop of
`SPARQLQueryService.validate_query_syntax` over `self.query_patterns`
(sparql_service.py lines 113-122 and 151-156): patterns `KW\s+` searched in
insertion order. -/
def detect_query_type_service (q : List Char) : Option QueryType :=
  if kwThenWS "SELECT".data q then some QueryType.SELECT
  else if kwThenWS "CONSTRUCT".data q then some QueryType.CONSTRUCT
  else if kwThenWS "ASK".data q then some QueryType.ASK
  else if kwThenWS "DESCRIBE".data q then some QueryType.DESCRIBE
  else if kwThenWS "INSERT".data q then some QueryType.INSERT
  else if kwThenWS "DELETE".data q then some QueryType.DELETE
  else none

/-- The keyword occurs in `s` (case-insensitively, i.e. some segment
upper-cases to `kw`) immediately followed by a whitespace character. -/
def KwWSOccurs (kw s : List Char) : Prop :=
  ∃ pre mid w post, s = pre ++ mid ++ w :: post ∧ pyUpper mid = kw ∧ isPySpace w = true

theorem kwWSAt_iff (kw : List Char) : ∀ l : List Char,
    kwWSAt kw l = true ↔
      ∃ mid w post, l = mid ++ w :: post ∧ pyUpper mid = kw ∧ isPySpace w = true := by
  induction kw with
  | nil =>
    intro l
    cases l with
    | nil =>
      simp only [kwWSAt]
      constructor
      · intro h; exact absurd h (by simp)
      · rintro ⟨mid, w, post, heq, _, _⟩
        exact absurd heq (by simp)
    | cons c t =>
      simp only [kwWSAt]
      constructor
      · intro h; exact ⟨[], c, t, rfl, rfl, h⟩
      · rintro ⟨mid, w, post, heq, hmid, hw⟩
        have hmid' : mid = [] := by
          cases mid with
          | nil => rfl
          | cons m ms => simp [pyUpper] at hmid
        subst hmid'
        simp only [List.nil_append, List.cons.injEq] at heq
        rw [heq.1]
        exact hw
  | cons k ks ih =>
    intro l
    cases l with
    | nil =>
      simp only [kwWSAt]
      constructor
      · intro h; exact absurd h (by simp)
      · rintro ⟨mid, w, post, heq, _, _⟩
        exact absurd heq (by simp)
    | cons c t =>
      simp only [kwWSAt, Bool.and_eq_true, beq_iff_eq]
      rw [ih t]
      constructor
      · rintro ⟨hck, mid, w, post, heq, hmid, hw⟩
        refine ⟨c :: mid, w, post, by rw [heq]; rfl, ?_, hw⟩
        simp only [pyUpper, List.map_cons]
        simp only [pyUpper] at hmid
        rw [hck, hmid]
      · rintro ⟨mid, w, post, heq, hmid, hw⟩
        cases mid with
        | nil => simp [pyUpper] at hmid
        | cons m ms =>
          simp only [pyUpper, List.map_cons, List.cons.injEq] at hmid
          obtain ⟨hk, hks⟩ := hmid
          simp only [List.cons_append, List.cons.injEq] at heq
          obtain ⟨hcm, hteq⟩ := heq
          subst hcm
          exact ⟨hk, ms, w, post, hteq, hks, hw⟩

theorem kwThenWS_iff (kw : List Char) :
    ∀ s, kwThenWS kw s = true ↔ KwWSOccurs kw s := by
  intro s
  induction s with
  | nil =>
    simp only [kwThenWS]
    constructor
    · intro h; exact absurd h (by simp)
    · rintro ⟨pre, mid, w, post, heq, _, _⟩
      exact absurd heq (by simp)
  | cons c t ih =>
    simp only [kwThenWS, Bool.or_eq_true]
    rw [kwWSAt_iff, ih]
    constructor
    · rintro (⟨mid, w, post, heq, hmid, hw⟩ | ⟨pre, mid, w, post, heq, hmid, hw⟩)
      · exact ⟨[], mid, w, post, by simpa using heq, hmid, hw⟩
      · exact ⟨c :: pre, mid, w, post, by simp [heq], hmid, hw⟩
    · rintro ⟨pre, mid, w, post, heq, hmid, hw⟩
      cases pre with
      | nil => exact Or.inl ⟨mid, w, post, by simpa using heq, hmid, hw⟩
      | cons p ps =>
        simp only [List.cons_append, List.cons.injEq] at heq
        exact Or.inr ⟨ps, mid, w, post, heq.2, hmid, hw⟩

instance (kw s : List Char) : Decidable (KwWSOccurs kw s) :=
  decidable_of_iff (kwThenWS kw s = true) (kwThenWS_iff kw s)

/-- Claim C6, counterexample: the string `"select\t?x"` contains the keyword
SELECT followed by a whitespace character (a tab), yet
`CustomQueryService._detect_query_type` classifies it as UNKNOWN, because its
containment test is for the keyword followed by one literal space. -/
theorem C6_detect_type_counterexample :
    ("SELECT".data ++ ['\t']) <:+: pyStrip (pyUpper "select\t?x".data) ∧
    isPySpace '\t' = true ∧
    detect_query_type "select\t?x".data = "UNKNOWN" := by
  refine ⟨?_, by decide, by decide⟩
  decide

/-- Claim C6, amended: `CustomQueryService._detect_query_type` returns the
first keyword in the order SELECT, CONSTRUCT, ASK, DESCRIBE, INSERT, DELETE
whose occurrence followed by one literal space appears in the upper-cased
stripped query (else UNKNOWN), while `SPARQLQueryService`'s pattern-based
detection accepts the keyword followed by any whitespace character,
case-insensitively, in the same order (else no type). -/
theorem C6_classification_amended (s : List Char) :
    (detect_query_type s =
      (if "SELECT ".data <:+: pyStrip (pyUpper s) then "SELECT"
       else if "CONSTRUCT ".data <:+: pyStrip (pyUpper s) then "CONSTRUCT"
       else if "ASK ".data <:+: pyStrip (pyUpper s) then "ASK"
       else if "DESCRIBE ".data <:+: pyStrip (pyUpper s) then "DESCRIBE"
       else if "INSERT ".data <:+: pyStrip (pyUpper s) then "INSERT"
       else if "DELETE ".data <:+: pyStrip (pyUpper s) then "DELETE"
       else "UNKNOWN")) ∧
    (detect_query_type_service s =
      (if KwWSOccurs "SELECT".data s then some QueryType.SELECT
       else if KwWSOccurs "CONSTRUCT".data s then some QueryType.CONSTRUCT
       else if KwWSOccurs "ASK".data s then some QueryType.ASK
       else if KwWSOccurs "DESCRIBE".data s then some QueryType.DESCRIBE
       else if KwWSOccurs "INSERT".data s then some QueryType.INSERT
       else if KwWSOccurs "DELETE".data s then some QueryType.DELETE
       else none)) := by
  constructor
  · unfold detect_query_type
    simp only [pyInStr_iff]
  · unfold detect_query_type_service
    simp only [kwThenWS_iff]

/-! ## Injection patterns and query validation (sparql_service.py) -/

/-- One position of `re.search(r';\s*KW\s+', q, re.IGNORECASE)`: a literal
`;`, optional whitespace, then the keyword followed by whitespace. -/
def searchSemiKw (kw : List Char) : List Char → Bool
  | [] => false
  | c :: t => (c == ';' && kwWSAt kw (t.dropWhile isPySpace)) || searchSemiKw kw t

/-- Case-insensitive literal match of `kw` at the head, returning the rest. -/
def ciPrefixRest : List Char → List Char → Option (List Char)
  | [], l => some l
  | _ :: _, [] => none
  | k :: ks, c :: cs => if c.toUpper == k then ciPrefixRest ks cs else none

/-- `.*--` of the `UNION\s+SELECT.*--` pattern: a `--` further right with no
newline in between (`.` does not match a newline). -/
def dashDashNoNL : List Char → Bool
  | '-' :: '-' :: _ => true
  | c :: t => if c == '\n' then false else dashDashNoNL t
  | [] => false

/-- One position of `re.search(r'UNION\s+SELECT.*--', q, re.IGNORECASE)`. -/
def unionSelectAt (l : List Char) : Bool :=
  match ciPrefixRest "UNION".data l with
  | none => false
  | some r1 =>
    match r1 with
    | [] => false
    | c :: _ =>
      isPySpace c &&
        (match ciPrefixRest "SELECT".data (r1.dropWhile isPySpace) with
         | none => false
         | some r2 => dashDashNoNL r2)

def searchUnionSelect : List Char → Bool
  | [] => false
  | c :: t => unionSelectAt (c :: t) || searchUnionSelect t

/-- Embedding of the `self.injection_patterns` scan
(sparql_service.py lines 124-130 and 168-175). -/
def has_injection (q : List Char) : Bool :=
  searchSemiKw "DROP".data q || searchSemiKw "DELETE".data q ||
    searchSemiKw "INSERT".data q || searchUnionSelect q

/-- Embedding of the `ValidationResult` dataclass (sparql_service.py 60-66). -/
structure ValidationResult where
  is_valid : Bool
  error_message : Option String := none
  suggestions : Option (List String) := none
  query_type : Option QueryType := none

/-- Python `s.count(c)` for a single character. -/
def countChar (c : Char) (l : List Char) : Nat := (l.filter (fun x => x == c)).length

/-- Embedding of `SPARQLQueryService.validate_query_syntax`
(sparql_service.py lines 132-200): empty check, type detection, injection
denylist, brace balance, then advisory suggestions. -/
def validate_query_syntax_impl (query : List Char) : ValidationResult :=
  if (pyStrip query).isEmpty then
    { is_valid := false
      error_message := some "Query cannot be empty"
      suggestions := some ["Provide a valid SPARQL query"] }
  else
    let q := pyStrip query
    match detect_query_type_service q with
    | none =>
      { is_valid := false
        error_message := some "Unknown query type. Query must start with SELECT, CONSTRUCT, ASK, DESCRIBE, INSERT, or DELETE"
        suggestions := some ["Start your query with a valid SPARQL keyword",
          "Example: SELECT ?s ?p ?o WHERE \x7b ?s ?p ?o \x7d"] }
    | some qtype =>
      if has_injection q then
        { is_valid := false
          error_message := some "Query contains potentially unsafe patterns"
          suggestions := some ["Remove suspicious SQL-like commands", "Use proper SPARQL syntax"] }
      else if countChar '\x7b' q != countChar '\x7d' q then
        { is_valid := false
          error_message := some "Unbalanced braces in query"
          suggestions := some ["Check that all \x7b have matching \x7d", "Verify WHERE clause syntax"] }
      else
        let sugg1 :=
          if qtype == QueryType.SELECT && !(pyInStr "WHERE".data (pyUpper q)) then
            ["Consider adding a WHERE clause for better query structure"]
          else []
        let sugg2 :=
          if pyInStr ":".data q && !(pyInStr "PREFIX".data (pyUpper q)) then
            ["Define PREFIX declarations for namespace shortcuts"]
          else []
        { is_valid := true
          query_type := some qtype
          suggestions := if (sugg1 ++ sugg2).isEmpty then none else some (sugg1 ++ sugg2) }

/-! ## SPARQL-JSON values and the executor -/

/-- A JSON-shaped value, as handed around by SPARQLWrapper and the services. -/
inductive Json where
  | null : Json
  | bool (b : Bool) : Json
  | num (n : Int) : Json
  | rat (x : ℚ) : Json
  | str (s : String) : Json
  | arr (elems : List Json) : Json
  | obj (fields : List (String × Json)) : Json

def jsonLookup : List (String × Json) → String → Option Json
  | [], _ => none
  | (k, v) :: rest, key => if k == key then some v else jsonLookup rest key

/-- Python `d[key]` / `key in d` support: key lookup on an object. -/
def Json.get? (j : Json) (key : String) : Option Json :=
  match j with
  | .obj fields => jsonLookup fields key
  | _ => none

/-- Python `d.get(key, default)` (the source only calls it on dicts). -/
def Json.getD (j : Json) (key : String) (d : Json) : Json := (j.get? key).getD d

def Json.hasKey (j : Json) (key : String) : Bool := (j.get? key).isSome

def Json.asArr : Json → List Json
  | .arr l => l
  | _ => []

def Json.asString : Json → String
  | .str s => s
  | _ => ""

/-- Python truthiness of a JSON-shaped value (`if not raw_results`). -/
def Json.pyFalsy : Json → Bool
  | .null => true
  | .bool b => !b
  | .num n => n == 0
  | .rat x => x == 0
  | .str s => s.isEmpty
  | .arr l => l.isEmpty
  | .obj l => l.isEmpty

/-- Embedding of the `QueryResult` dataclass (sparql_service.py 50-58). -/
structure QueryResult where
  success : Bool
  data : Option Json := none
  error : Option String := none
  execution_time : Option ℚ := none
  query_type : Option QueryType := none
  bindings_count : Option Nat := none

/-- Outcome of one attempt against the store: a normal SPARQL-JSON result, a
`SPARQLWrapperException` (store/query-level error), or any other exception. -/
inductive AttemptOutcome where
  | ok (results : Json)
  | storeErr (msg : String)
  | unexpectedErr (msg : String)

/-- Bindings count of a result (sparql_service.py lines 284-287): present only
when `results['results']['bindings']` exists (as an array). -/
def countBindings (results : Json) : Option Nat :=
  match results.get? "results" with
  | some r =>
    match r.get? "bindings" with
    | some (Json.arr l) => some l.length
    | _ => none
  | none => none

/-- Embedding of the loop of `SPARQLQueryService._execute_with_retry`
(sparql_service.py lines 269-314).  `remaining` counts the attempts still
allowed including the current one; `attempt` is the Python loop index; the
clock advances by the attempt duration `dur attempt` and by every sleep.
Returns the `QueryResult`, the number of store calls made, and the list of
backoff sleeps performed (in order). -/
def execute_with_retry (step : Nat → AttemptOutcome) (dur : Nat → ℚ)
    (startTime : ℚ) : Nat → Nat → ℚ → Option String → QueryResult × Nat × List ℚ
  | 0, _, clock, lastError =>
    ({ success := false, error := lastError, execution_time := some (clock - startTime) }, 0, [])
  | remaining + 1, attempt, clock, lastError =>
    let c1 := clock + dur attempt
    match step attempt with
    | .ok results =>
      ({ success := true, data := some results, execution_time := some (c1 - startTime),
         bindings_count := countBindings results }, 1, [])
    | .storeErr msg =>
      let lastE := some ("SPARQL error: " ++ msg)
      if remaining = 0 then
        ({ success := false, error := lastE, execution_time := some (c1 - startTime) }, 1, [])
      else
        let s := (1 / 2 : ℚ) * ((attempt : ℚ) + 1)
        let r := execute_with_retry step dur startTime remaining (attempt + 1) (c1 + s) lastE
        (r.1, r.2.1 + 1, s :: r.2.2)
    | .unexpectedErr msg =>
      ({ success := false, error := some ("Unexpected error: " ++ msg),
         execution_time := some (c1 - startTime) }, 1, [])

/-- Embedding of `SPARQLQueryService.execute_query_with_validation`
(sparql_service.py lines 226-267): sanitize, optionally validate (failure
returns immediately with no store call), then run the retry loop. -/
def execute_query_with_validation (step : Nat → AttemptOutcome) (dur : Nat → ℚ)
    (maxRetries : Nat) (startTime : ℚ) (q : List Char) (timeout : Option ℚ)
    (defaultTimeout : ℚ) (validate : Bool) : QueryResult × Nat × List ℚ :=
  let q' := sanitize_query_input q
  let v := validate_query_syntax_impl q'
  if validate && !v.is_valid then
    ({ success := false
       error := some ("Query validation failed: " ++ (v.error_message.getD "None"))
       execution_time := some 0 }, 0, [])
  else
    -- `query_timeout = timeout or self.default_timeout` (affects only the
    -- HTTP layer, which the store model absorbs)
    let _query_timeout := match timeout with
      | none => defaultTimeout
      | some t => if t = 0 then defaultTimeout else t
    execute_with_retry step dur startTime maxRetries 0 startTime none

/-! ## Claims C3 and C8: retry loop and result invariant -/

theorem execute_with_retry_invariant (step : Nat → AttemptOutcome) (dur : Nat → ℚ)
    (startTime : ℚ) :
    ∀ remaining attempt clock lastError,
      1 ≤ remaining ∨ lastError.isSome = true →
      ((execute_with_retry step dur startTime remaining attempt clock lastError).1.success = true →
        (execute_with_retry step dur startTime remaining attempt clock lastError).1.data.isSome = true ∧
        (execute_with_retry step dur startTime remaining attempt clock lastError).1.error = none) ∧
      ((execute_with_retry step dur startTime remaining attempt clock lastError).1.success = false →
        (execute_with_retry step dur startTime remaining attempt clock lastError).1.error.isSome = true) := by
  intro remaining
  induction remaining with
  | zero =>
    intro attempt clock lastError h
    rcases h with h | h
    · omega
    · simp only [execute_with_retry]
      exact ⟨fun hs => by simp at hs, fun _ => h⟩
  | succ rem ih =>
    intro attempt clock lastError _
    simp only [execute_with_retry]
    cases hstep : step attempt with
    | ok results => exact ⟨fun _ => ⟨rfl, rfl⟩, fun hf => by simp at hf⟩
    | storeErr msg =>
      by_cases hrem : rem = 0
      · simp only [hrem, if_pos rfl]
        exact ⟨fun hs => by simp at hs, fun _ => rfl⟩
      · simp only [if_neg hrem]
        exact ih (attempt + 1) (clock + dur attempt + (1 / 2 : ℚ) * ((attempt : ℚ) + 1))
          (some ("SPARQL error: " ++ msg)) (Or.inr rfl)
    | unexpectedErr msg => exact ⟨fun hs => by simp at hs, fun _ => rfl⟩

/-- Claim C8: every `QueryResult` produced by `execute_query_with_validation`
satisfies the invariant — `success = true` implies `data` present and `error`
absent, and `success = false` implies `error` present — whenever the service's
`max_retries` is at least 1, for every query, timeout, validate flag, store
behaviour and attempt timing. -/
theorem C8_query_result_invariant (step : Nat → AttemptOutcome) (dur : Nat → ℚ)
    (maxRetries : Nat) (hm : 1 ≤ maxRetries) (startTime : ℚ) (q : List Char)
    (timeout : Option ℚ) (defaultTimeout : ℚ) (validate : Bool) :
    ((execute_query_with_validation step dur maxRetries startTime q timeout
        defaultTimeout validate).1.success = true →
      (execute_query_with_validation step dur maxRetries startTime q timeout
        defaultTimeout validate).1.data.isSome = true ∧
      (execute_query_with_validation step dur maxRetries startTime q timeout
        defaultTimeout validate).1.error = none) ∧
    ((execute_query_with_validation step dur maxRetries startTime q timeout
        defaultTimeout validate).1.success = false →
      (execute_query_with_validation step dur maxRetries startTime q timeout
        defaultTimeout validate).1.error.isSome = true) := by
  unfold execute_query_with_validation
  by_cases hv :
      (validate && !(validate_query_syntax_impl (sanitize_query_input q)).is_valid) = true
  · simp only [hv, if_true]
    exact ⟨fun hs => by simp at hs, fun _ => rfl⟩
  · simp only [hv, Bool.false_eq_true, if_false]
    exact execute_with_retry_invariant step dur startTime maxRetries 0 startTime none
      (Or.inl hm)

/-- Witness for C8 at a concrete store, timing and query. -/
theorem C8_query_result_invariant_witness :
    ((execute_query_with_validation (fun _ => AttemptOutcome.ok (Json.obj []))
        (fun _ => 0) 1 0 "SELECT ?s WHERE \x7b ?s ?p ?o \x7d".data none 30
        true).1.success = true →
      (execute_query_with_validation (fun _ => AttemptOutcome.ok (Json.obj []))
        (fun _ => 0) 1 0 "SELECT ?s WHERE \x7b ?s ?p ?o \x7d".data none 30
        true).1.data.isSome = true ∧
      (execute_query_with_validation (fun _ => AttemptOutcome.ok (Json.obj []))
        (fun _ => 0) 1 0 "SELECT ?s WHERE \x7b ?s ?p ?o \x7d".data none 30
        true).1.error = none) ∧
    ((execute_query_with_validation (fun _ => AttemptOutcome.ok (Json.obj []))
        (fun _ => 0) 1 0 "SELECT ?s WHERE \x7b ?s ?p ?o \x7d".data none 30
        true).1.success = false →
      (execute_query_with_validation (fun _ => AttemptOutcome.ok (Json.obj []))
        (fun _ => 0) 1 0 "SELECT ?s WHERE \x7b ?s ?p ?o \x7d".data none 30
        true).1.error.isSome = true) :=
  C8_query_result_invariant (fun _ => AttemptOutcome.ok (Json.obj [])) (fun _ => 0) 1
    (by decide) 0 "SELECT ?s WHERE \x7b ?s ?p ?o \x7d".data none 30 true

/-- One-step unfolding of the retry loop. -/
theorem execute_with_retry_succ (step : Nat → AttemptOutcome) (dur : Nat → ℚ)
    (startTime : ℚ) (rem attempt : Nat) (clock : ℚ) (lastError : Option String) :
    execute_with_retry step dur startTime (rem + 1) attempt clock lastError =
      (match step attempt with
       | .ok results =>
         ({ success := true, data := some results,
            execution_time := some (clock + dur attempt - startTime),
            bindings_count := countBindings results }, 1, [])
       | .storeErr msg =>
         if rem = 0 then
           ({ success := false, error := some ("SPARQL error: " ++ msg),
              execution_time := some (clock + dur attempt - startTime) }, 1, [])
         else
           (((execute_with_retry step dur startTime rem (attempt + 1)
               (clock + dur attempt + (1 / 2 : ℚ) * ((attempt : ℚ) + 1))
               (some ("SPARQL error: " ++ msg)))).1,
            ((execute_with_retry step dur startTime rem (attempt + 1)
               (clock + dur attempt + (1 / 2 : ℚ) * ((attempt : ℚ) + 1))
               (some ("SPARQL error: " ++ msg)))).2.1 + 1,
            (1 / 2 : ℚ) * ((attempt : ℚ) + 1) ::
            ((execute_with_retry step dur startTime rem (attempt + 1)
               (clock + dur attempt + (1 / 2 : ℚ) * ((attempt : ℚ) + 1))
               (some ("SPARQL error: " ++ msg)))).2.2)
       | .unexpectedErr msg =>
         ({ success := false, error := some ("Unexpected error: " ++ msg),
            execution_time := some (clock + dur attempt - startTime) }, 1, [])) := rfl

theorem execute_with_retry_all_store (step : Nat → AttemptOutcome) (dur : Nat → ℚ)
    (startTime : ℚ) (e : Nat → String)
    (hstep : ∀ i, step i = AttemptOutcome.storeErr (e i)) :
    ∀ remaining, 1 ≤ remaining → ∀ attempt clock lastError,
      (execute_with_retry step dur startTime remaining attempt clock lastError).1.success
        = false ∧
      (execute_with_retry step dur startTime remaining attempt clock lastError).2.1
        = remaining ∧
      (execute_with_retry step dur startTime remaining attempt clock lastError).2.2 =
        (List.range (remaining - 1)).map
          (fun k : Nat => (1 / 2 : ℚ) * ((attempt : ℚ) + (k : ℚ) + 1)) := by
  intro remaining
  induction remaining with
  | zero => intro h; omega
  | succ rem ih =>
    intro _ attempt clock lastError
    rw [execute_with_retry_succ, hstep attempt]
    by_cases hrem : rem = 0
    · subst hrem
      simp
    · simp only [if_neg hrem]
      obtain ⟨h1, h2, h3⟩ := ih (by omega) (attempt + 1)
        (clock + dur attempt + (1 / 2 : ℚ) * ((attempt : ℚ) + 1))
        (some ("SPARQL error: " ++ e attempt))
      refine ⟨h1, by rw [h2], ?_⟩
      rw [h3]
      obtain ⟨r', rfl⟩ : ∃ r', rem = r' + 1 := ⟨rem - 1, by omega⟩
      simp only [Nat.add_sub_cancel]
      rw [List.range_succ_eq_map, List.map_cons, List.map_map]
      congr 1
      · push_cast; ring
      · apply List.map_congr_left
        intro k _
        simp only [Function.comp_apply]
        push_cast
        ring

/-- Claim C3: in the executor's retry loop, store-level errors are retried up
to `maxRetries` attempts with backoff sleeps `0.5 * attemptNumber` between
consecutive attempts (attempt numbered from 1, no sleep after the final
attempt); an unexpected exception aborts after its attempt with no retry and
no sleep; and when the first two attempts fail at store level and the third
succeeds, the result is a success whose execution time includes at least the
`0.5 + 1.0` seconds of accumulated sleep. -/
theorem C3_retry_backoff_behaviour (step : Nat → AttemptOutcome) (dur : Nat → ℚ)
    (startTime : ℚ) :
    (∀ (maxRetries : Nat) (e : Nat → String), 1 ≤ maxRetries →
      (∀ i, step i = AttemptOutcome.storeErr (e i)) →
      (execute_with_retry step dur startTime maxRetries 0 startTime none).1.success = false ∧
      (execute_with_retry step dur startTime maxRetries 0 startTime none).2.1 = maxRetries ∧
      (execute_with_retry step dur startTime maxRetries 0 startTime none).2.2 =
        (List.range (maxRetries - 1)).map (fun k : Nat => (1 / 2 : ℚ) * ((k : ℚ) + 1))) ∧
    (∀ (maxRetries : Nat) (m : String), 1 ≤ maxRetries →
      step 0 = AttemptOutcome.unexpectedErr m →
      (execute_with_retry step dur startTime maxRetries 0 startTime none).1.success = false ∧
      (execute_with_retry step dur startTime maxRetries 0 startTime none).1.error
        = some ("Unexpected error: " ++ m) ∧
      (execute_with_retry step dur startTime maxRetries 0 startTime none).2.1 = 1 ∧
      (execute_with_retry step dur startTime maxRetries 0 startTime none).2.2 = []) ∧
    (∀ e0 e1 results, (∀ i, 0 ≤ dur i) →
      step 0 = AttemptOutcome.storeErr e0 → step 1 = AttemptOutcome.storeErr e1 →
      step 2 = AttemptOutcome.ok results →
      (execute_with_retry step dur startTime 3 0 startTime none).1.success = true ∧
      (execute_with_retry step dur startTime 3 0 startTime none).2.2 = [1 / 2, 1] ∧
      ∃ t, (execute_with_retry step dur startTime 3 0 startTime none).1.execution_time
          = some t ∧ (3 / 2 : ℚ) ≤ t) := by
  refine ⟨?_, ?_, ?_⟩
  · intro maxRetries e hm hstep
    obtain ⟨h1, h2, h3⟩ :=
      execute_with_retry_all_store step dur startTime e hstep maxRetries hm 0 startTime none
    refine ⟨h1, h2, ?_⟩
    rw [h3]
    apply List.map_congr_left
    intro k _
    push_cast
    ring
  · intro maxRetries m hm hstep
    obtain ⟨r', rfl⟩ : ∃ r', maxRetries = r' + 1 := ⟨maxRetries - 1, by omega⟩
    rw [execute_with_retry_succ, hstep]
    exact ⟨rfl, rfl, rfl, rfl⟩
  · intro e0 e1 results hd h0 h1 h2
    rw [show (3 : Nat) = (1 + 1) + 1 from rfl]
    rw [execute_with_retry_succ, h0]
    simp only [Nat.add_eq_zero, Nat.succ_ne_zero, false_and, if_false]
    rw [show (0 : Nat) + 1 = 0 + 1 from rfl]
    rw [execute_with_retry_succ]
    rw [show (0 : Nat) + 1 = 1 from rfl, h1]
    simp only [Nat.succ_ne_zero, if_false, one_ne_zero]
    rw [show (1 : Nat) + 1 = 2 from rfl]
    rw [execute_with_retry_succ, h2]
    refine ⟨rfl, by norm_num, ?_⟩
    refine ⟨_, rfl, ?_⟩
    have hd0 := hd 0
    have hd1 := hd 1
    have hd2 := hd 2
    push_cast
    linarith

/-! ## Custom query service (custom_query_service.py) -/

/-- Worker for Python `str.count(sub)`: non-overlapping occurrence count. -/
def countSubGo (n0 : Char) (ns : List Char) : List Char → Nat
  | [] => 0
  | c :: t =>
    if (n0 :: ns).isPrefixOf (c :: t) then 1 + countSubGo n0 ns (t.drop ns.length)
    else countSubGo n0 ns t
termination_by l => l.length
decreasing_by
  · simp only [List.length_cons, List.length_drop]; omega
  · simp only [List.length_cons]; omega

/-- Python `hay.count(needle)` (for the empty needle Python returns
`len(hay) + 1`). -/
def countSub (needle hay : List Char) : Nat :=
  match needle with
  | [] => hay.length + 1
  | n0 :: ns => countSubGo n0 ns hay

/-- Embedding of `CustomQueryService._check_dangerous_patterns`
(custom_query_service.py lines 241-259). -/
def check_dangerous_patterns (q : List Char) : List String :=
  (if pyInStr "INSERT".data (pyUpper q) || pyInStr "DELETE".data (pyUpper q) ||
      pyInStr "DROP".data (pyUpper q) || pyInStr "CLEAR".data (pyUpper q) ||
      pyInStr "LOAD".data (pyUpper q) then ["modification_operations"] else []) ++
  (if pyInStr "SYSTEM".data (pyUpper q) || pyInStr "EXEC".data (pyUpper q) ||
      pyInStr "SHELL".data (pyUpper q) then ["system_functions"] else []) ++
  (if 10 < countSub "UNION".data (pyUpper q) then ["excessive_unions"] else [])

/-- Embedding of the `CustomQueryResult` dataclass
(custom_query_service.py lines 29-38). -/
structure CustomQueryResult where
  success : Bool
  data : Option Json := none
  error : Option String := none
  execution_time : Option ℚ := none
  query_type : Option String := none
  bindings_count : Option Nat := none
  metadata : Option Json := none

/-- Embedding of `CustomQueryService._validate_custom_query`
(custom_query_service.py lines 162-219): empty, length, SELECT-only, syntax
validation, dangerous patterns — in that order, short-circuiting. -/
def validate_custom_query (q : List Char) : CustomQueryResult :=
  if (pyStrip q).isEmpty then
    { success := false
      error := some "Query cannot be empty"
      metadata := some (Json.obj [("validation_error", Json.str "empty_query")]) }
  else if 10000 < (pyStrip q).length then
    { success := false
      error := some "Query too long. Maximum length is 10000 characters"
      metadata := some (Json.obj [("validation_error", Json.str "query_too_long"),
        ("query_length", Json.num ((pyStrip q).length : Int))]) }
  else if detect_query_type (pyStrip q) != "SELECT" then
    { success := false
      error := some "Only SELECT queries are allowed for custom queries"
      metadata := some (Json.obj [("validation_error", Json.str "invalid_query_type"),
        ("detected_type", Json.str (detect_query_type (pyStrip q)))]) }
  else if !(validate_query_syntax_impl (pyStrip q)).is_valid then
    { success := false
      error := (validate_query_syntax_impl (pyStrip q)).error_message
      metadata := some (Json.obj [("validation_error", Json.str "syntax_error"),
        ("suggestions",
          Json.arr (((validate_query_syntax_impl (pyStrip q)).suggestions.getD []).map
            Json.str))]) }
  else if !(check_dangerous_patterns (pyStrip q)).isEmpty then
    { success := false
      error := some ("Query contains potentially dangerous patterns: "
        ++ String.intercalate ", " (check_dangerous_patterns (pyStrip q)))
      metadata := some (Json.obj [("validation_error", Json.str "dangerous_patterns"),
        ("patterns", Json.arr ((check_dangerous_patterns (pyStrip q)).map Json.str))]) }
  else { success := true }

/-- Embedding of `CustomQueryService._extract_local_name`
(custom_query_service.py lines 340-346): the segment after the last `#`, else
after the last `/`, else the whole value. -/
def afterLastChar (c : Char) (l : List Char) : List Char :=
  (l.reverse.takeWhile (fun x => x != c)).reverse

def extract_local_name (uri : List Char) : List Char :=
  if uri.contains '#' then afterLastChar '#' uri
  else if uri.contains '/' then afterLastChar '/' uri
  else uri

/-- Embedding of `CustomQueryService._format_query_results`
(custom_query_service.py lines 261-316).  NOTE: faithfully to the source, the
declared variables are read from `raw['results']['vars']` — not from
`raw['head']['vars']` where the SPARQL-JSON protocol puts them.  Variables are
strings in the protocol, so non-string entries read as `""`. -/
def format_query_results (raw : Json) (query : List Char) : Json :=
  if raw.pyFalsy || !(raw.hasKey "results") then
    Json.obj [("variables", Json.arr []), ("bindings", Json.arr []),
      ("bindings_count", Json.num 0), ("formatted", Json.bool true)]
  else
    let results := raw.getD "results" Json.null
    let varsVal := results.getD "vars" (Json.arr [])
    let bindings := results.getD "bindings" (Json.arr [])
    let formatted_bindings := bindings.asArr.map (fun binding =>
      Json.obj (varsVal.asArr.map (fun v =>
        match binding.get? v.asString with
        | some value_info =>
          (v.asString, Json.obj ([("value", value_info.getD "value" (Json.str "")),
            ("type", value_info.getD "type" (Json.str "literal")),
            ("datatype", value_info.getD "datatype" Json.null),
            ("xml:lang", value_info.getD "xml:lang" Json.null)] ++
            (match value_info.get? "type" with
             | some (Json.str t) =>
               if t == "uri" then
                 [("local_name", Json.str (String.mk (extract_local_name
                   ((value_info.getD "value" (Json.str "")).asString.data))))]
               else []
             | _ => [])))
        | none => (v.asString, Json.null))))
    Json.obj [("variables", varsVal),
      ("bindings", Json.arr formatted_bindings),
      ("bindings_count", Json.num (formatted_bindings.length : Int)),
      ("formatted", Json.bool true),
      ("query_info", Json.obj [("query_type", Json.str (detect_query_type query)),
        ("has_limit", Json.bool (pyInStr "LIMIT".data (pyUpper query))),
        ("has_order", Json.bool (pyInStr "ORDER".data (pyUpper query)))])]

/-- The endpoint the service is constructed with (custom_query_service.py 46). -/
def fuseki_endpoint : String := "http://localhost:3030/smartcity/query"

/-- Embedding of `CustomQueryService.execute_custom_query`
(custom_query_service.py lines 68-131).  The service's inner
`SPARQLQueryService` is constructed with `max_retries = 2` and default timeout
30 (lines 54-58).  Returns the result and the number of store calls made. -/
def execute_custom_query (step : Nat → AttemptOutcome) (dur : Nat → ℚ)
    (startTime : ℚ) (q : List Char) (timeout : Option ℚ) (format_results : Bool) :
    CustomQueryResult × Nat :=
  let validation := validate_custom_query q
  if !validation.success then (validation, 0)
  else
    let query_timeout := match timeout with
      | none => (30 : ℚ)
      | some t => if t = 0 then 30 else t
    let r := execute_query_with_validation step dur 2 startTime q (some query_timeout) 30 true
    let execution_time := (r.1.execution_time.getD 0)
    if !r.1.success then
      ({ success := false, error := r.1.error, execution_time := some execution_time,
         query_type := some (detect_query_type q) }, r.2.1)
    else
      let formatted_data :=
        if format_results then format_query_results (r.1.data.getD Json.null) q
        else r.1.data.getD Json.null
      ({ success := true
         data := some formatted_data
         execution_time := some execution_time
         query_type := some (detect_query_type q)
         bindings_count := r.1.bindings_count
         metadata := some (Json.obj [("query_length", Json.num (q.length : Int)),
           ("execution_time", Json.rat execution_time),
           ("bindings_count", match r.1.bindings_count with
             | some n => Json.num (n : Int)
             | none => Json.null),
           ("query_type", Json.str (detect_query_type q)),
           ("endpoint", Json.str fuseki_endpoint),
           ("timeout_used", Json.rat query_timeout)]) }, r.2.1)

/-! ## Concrete stores used by witnesses -/

def storeAlwaysOk : Nat → AttemptOutcome := fun _ => AttemptOutcome.ok (Json.obj [])

def durZero : Nat → ℚ := fun _ => 0

def stepTwoFailures : Nat → AttemptOutcome := fun i =>
  if i = 0 then AttemptOutcome.storeErr "endpoint overloaded"
  else if i = 1 then AttemptOutcome.storeErr "endpoint overloaded again"
  else AttemptOutcome.ok (Json.obj [])

/-- Witness for C3: with zero attempt durations, two store failures then a
success yield a successful result, sleeps `[0.5, 1.0]`, and an execution time
of at least 1.5 seconds. -/
theorem C3_retry_backoff_witness :
    (execute_with_retry stepTwoFailures durZero 0 3 0 0 none).1.success = true ∧
    (execute_with_retry stepTwoFailures durZero 0 3 0 0 none).2.2 = [1 / 2, 1] ∧
    ∃ t, (execute_with_retry stepTwoFailures durZero 0 3 0 0 none).1.execution_time = some t ∧
      (3 / 2 : ℚ) ≤ t :=
  (C3_retry_backoff_behaviour stepTwoFailures durZero 0).2.2 "endpoint overloaded"
    "endpoint overloaded again" (Json.obj []) (fun _ => le_refl 0) rfl rfl rfl

/-! ## Claim C4 and C10: custom query policy -/

theorem execute_custom_rejects_empty (step : Nat → AttemptOutcome) (dur : Nat → ℚ)
    (startTime : ℚ) (timeout : Option ℚ) (fr : Bool) (q : List Char)
    (h : pyStrip q = []) :
    (execute_custom_query step dur startTime q timeout fr).1.success = false ∧
    (execute_custom_query step dur startTime q timeout fr).1.error
      = some "Query cannot be empty" ∧
    (execute_custom_query step dur startTime q timeout fr).2 = 0 := by
  have he : (pyStrip q).isEmpty = true := by simp [List.isEmpty_iff, h]
  unfold execute_custom_query validate_custom_query
  simp [he]

theorem execute_custom_rejects_too_long (step : Nat → AttemptOutcome) (dur : Nat → ℚ)
    (startTime : ℚ) (timeout : Option ℚ) (fr : Bool) (q : List Char)
    (hlen : 10000 < (pyStrip q).length) :
    (execute_custom_query step dur startTime q timeout fr).1.success = false ∧
    (execute_custom_query step dur startTime q timeout fr).1.error
      = some "Query too long. Maximum length is 10000 characters" ∧
    (execute_custom_query step dur startTime q timeout fr).2 = 0 := by
  have hne : (pyStrip q).isEmpty = false := by
    rw [List.isEmpty_eq_false]
    intro h
    rw [h] at hlen
    simp at hlen
  unfold execute_custom_query validate_custom_query
  simp [hne, if_pos hlen]

theorem execute_custom_rejects_type (step : Nat → AttemptOutcome) (dur : Nat → ℚ)
    (startTime : ℚ) (timeout : Option ℚ) (fr : Bool) (q : List Char)
    (hne : pyStrip q ≠ []) (hlen : ¬ (10000 < (pyStrip q).length))
    (hdet : detect_query_type (pyStrip q) ≠ "SELECT") :
    (execute_custom_query step dur startTime q timeout fr).1.success = false ∧
    (execute_custom_query step dur startTime q timeout fr).1.error
      = some "Only SELECT queries are allowed for custom queries" ∧
    (execute_custom_query step dur startTime q timeout fr).2 = 0 := by
  have he : (pyStrip q).isEmpty = false := by rw [List.isEmpty_eq_false]; exact hne
  have hb : (detect_query_type (pyStrip q) != "SELECT") = true := bne_iff_ne.2 hdet
  unfold execute_custom_query validate_custom_query
  simp [he, if_neg hlen, hb]

theorem execute_custom_rejects_syntax (step : Nat → AttemptOutcome) (dur : Nat → ℚ)
    (startTime : ℚ) (timeout : Option ℚ) (fr : Bool) (q : List Char)
    (hne : pyStrip q ≠ []) (hlen : ¬ (10000 < (pyStrip q).length))
    (hdet : detect_query_type (pyStrip q) = "SELECT")
    (hval : (validate_query_syntax_impl (pyStrip q)).is_valid = false) :
    (execute_custom_query step dur startTime q timeout fr).1.success = false ∧
    (execute_custom_query step dur startTime q timeout fr).1.error
      = (validate_query_syntax_impl (pyStrip q)).error_message ∧
    (execute_custom_query step dur startTime q timeout fr).2 = 0 := by
  have he : (pyStrip q).isEmpty = false := by rw [List.isEmpty_eq_false]; exact hne
  have hb : (detect_query_type (pyStrip q) != "SELECT") = false := by
    simp [bne_eq_false_iff_eq, hdet]
  unfold execute_custom_query validate_custom_query
  simp [he, if_neg hlen, hb, hval]

theorem execute_custom_rejects_dangerous (step : Nat → AttemptOutcome) (dur : Nat → ℚ)
    (startTime : ℚ) (timeout : Option ℚ) (fr : Bool) (q : List Char)
    (hne : pyStrip q ≠ []) (hlen : ¬ (10000 < (pyStrip q).length))
    (hdet : detect_query_type (pyStrip q) = "SELECT")
    (hval : (validate_query_syntax_impl (pyStrip q)).is_valid = true)
    (hd : check_dangerous_patterns (pyStrip q) ≠ []) :
    (execute_custom_query step dur startTime q timeout fr).1.success = false ∧
    (execute_custom_query step dur startTime q timeout fr).1.error
      = some ("Query contains potentially dangerous patterns: "
          ++ String.intercalate ", " (check_dangerous_patterns (pyStrip q))) ∧
    (execute_custom_query step dur startTime q timeout fr).2 = 0 := by
  have he : (pyStrip q).isEmpty = false := by rw [List.isEmpty_eq_false]; exact hne
  have hb : (detect_query_type (pyStrip q) != "SELECT") = false := by
    simp [bne_eq_false_iff_eq, hdet]
  have hde : (check_dangerous_patterns (pyStrip q)).isEmpty = false := by
    rw [List.isEmpty_eq_false]; exact hd
  unfold execute_custom_query validate_custom_query
  simp [he, if_neg hlen, hb, hval, hde]

/-- Claim C4: `execute_custom_query` applies its policy checks in the fixed
order empty query, length over 10000, detected type not SELECT, syntax
validation, dangerous patterns — short-circuiting with `success = false` on
the first failing check, and in each of those cases making zero calls to the
store; in particular every query whose stripped form exceeds 10000 characters
is rejected as too long before any network call, whatever its type. -/
theorem C4_custom_policy_order (step : Nat → AttemptOutcome) (dur : Nat → ℚ)
    (startTime : ℚ) (timeout : Option ℚ) (fr : Bool) (q : List Char) :
    (pyStrip q = [] →
      (execute_custom_query step dur startTime q timeout fr).1.success = false ∧
      (execute_custom_query step dur startTime q timeout fr).1.error
        = some "Query cannot be empty" ∧
      (execute_custom_query step dur startTime q timeout fr).2 = 0) ∧
    (10000 < (pyStrip q).length →
      (execute_custom_query step dur startTime q timeout fr).1.success = false ∧
      (execute_custom_query step dur startTime q timeout fr).1.error
        = some "Query too long. Maximum length is 10000 characters" ∧
      (execute_custom_query step dur startTime q timeout fr).2 = 0) ∧
    (pyStrip q ≠ [] → ¬ (10000 < (pyStrip q).length) →
      detect_query_type (pyStrip q) ≠ "SELECT" →
      (execute_custom_query step dur startTime q timeout fr).1.success = false ∧
      (execute_custom_query step dur startTime q timeout fr).1.error
        = some "Only SELECT queries are allowed for custom queries" ∧
      (execute_custom_query step dur startTime q timeout fr).2 = 0) ∧
    (pyStrip q ≠ [] → ¬ (10000 < (pyStrip q).length) →
      detect_query_type (pyStrip q) = "SELECT" →
      (validate_query_syntax_impl (pyStrip q)).is_valid = false →
      (execute_custom_query step dur startTime q timeout fr).1.success = false ∧
      (execute_custom_query step dur startTime q timeout fr).1.error
        = (validate_query_syntax_impl (pyStrip q)).error_message ∧
      (execute_custom_query step dur startTime q timeout fr).2 = 0) ∧
    (pyStrip q ≠ [] → ¬ (10000 < (pyStrip q).length) →
      detect_query_type (pyStrip q) = "SELECT" →
      (validate_query_syntax_impl (pyStrip q)).is_valid = true →
      check_dangerous_patterns (pyStrip q) ≠ [] →
      (execute_custom_query step dur startTime q timeout fr).1.success = false ∧
      (execute_custom_query step dur startTime q timeout fr).1.error
        = some ("Query contains potentially dangerous patterns: "
            ++ String.intercalate ", " (check_dangerous_patterns (pyStrip q))) ∧
      (execute_custom_query step dur startTime q timeout fr).2 = 0) :=
  ⟨fun h => execute_custom_rejects_empty step dur startTime timeout fr q h,
   fun h => execute_custom_rejects_too_long step dur startTime timeout fr q h,
   fun h1 h2 h3 => execute_custom_rejects_type step dur startTime timeout fr q h1 h2 h3,
   fun h1 h2 h3 h4 => execute_custom_rejects_syntax step dur startTime timeout fr q h1 h2 h3 h4,
   fun h1 h2 h3 h4 h5 =>
     execute_custom_rejects_dangerous step dur startTime timeout fr q h1 h2 h3 h4 h5⟩

theorem pyStrip_replicate_of_nonspace (n : Nat) (c : Char) (hc : isPySpace c = false) :
    pyStrip (List.replicate n c) = List.replicate n c := by
  have hdw : ∀ m, List.dropWhile isPySpace (List.replicate m c) = List.replicate m c := by
    intro m
    cases m with
    | zero => rfl
    | succ m' =>
      rw [List.replicate_succ, List.dropWhile_cons, if_neg (by simp [hc])]
  unfold pyStrip
  rw [hdw, List.reverse_replicate, hdw, List.reverse_replicate]

/-- Witness for C4 at a 10001-character query: rejected as too long with no
store call. -/
theorem C4_custom_policy_witness :
    (execute_custom_query storeAlwaysOk durZero 0 (List.replicate 10001 'A') none
      true).1.success = false ∧
    (execute_custom_query storeAlwaysOk durZero 0 (List.replicate 10001 'A') none
      true).1.error = some "Query too long. Maximum length is 10000 characters" ∧
    (execute_custom_query storeAlwaysOk durZero 0 (List.replicate 10001 'A') none
      true).2 = 0 :=
  (C4_custom_policy_order storeAlwaysOk durZero 0 none true
      (List.replicate 10001 'A')).2.1
    (by rw [pyStrip_replicate_of_nonspace 10001 'A' (by decide), List.length_replicate]; norm_num)

/-- The six recognized keywords, in the order the code checks them. -/
def sparqlKeywords : List (List Char) :=
  ["SELECT".data, "CONSTRUCT".data, "ASK".data, "DESCRIBE".data, "INSERT".data,
    "DELETE".data]

/-- Claim C10, amended: when the (upper-cased, stripped) query contains SELECT
followed by a whitespace character other than a literal space, no recognized
keyword anywhere is followed by a literal space, and the stripped query is at
most 10000 characters long (otherwise the length guard rejects first), then
`execute_custom_query` rejects with "Only SELECT queries are allowed for
custom queries" and no store call: type detection runs on the raw query and
matches only the exact substring of keyword plus one space after
upper-casing, so such queries classify as UNKNOWN. -/
theorem C10_select_whitespace_amended (step : Nat → AttemptOutcome) (dur : Nat → ℚ)
    (startTime : ℚ) (timeout : Option ℚ) (fr : Bool) (q : List Char)
    (h1 : ∃ w, isPySpace w = true ∧ w ≠ ' ' ∧
      ("SELECT".data ++ [w]) <:+: pyStrip (pyUpper (pyStrip q)))
    (h2 : ∀ kw ∈ sparqlKeywords, ¬ ((kw ++ [' ']) <:+: pyStrip (pyUpper (pyStrip q))))
    (h3 : (pyStrip q).length ≤ 10000) :
    (execute_custom_query step dur startTime q timeout fr).1.success = false ∧
    (execute_custom_query step dur startTime q timeout fr).1.error
      = some "Only SELECT queries are allowed for custom queries" ∧
    (execute_custom_query step dur startTime q timeout fr).2 = 0 := by
  have hne : pyStrip q ≠ [] := by
    intro h0
    obtain ⟨w, _, _, hinf⟩ := h1
    rw [h0] at hinf
    simp only [pyUpper, List.map_nil, pyStrip, List.dropWhile_nil, List.reverse_nil,
      List.infix_nil, List.append_eq_nil] at hinf
    exact absurd hinf.1 (by decide)
  have hf : ∀ kw, kw ∈ sparqlKeywords →
      pyInStr (kw ++ [' ']) (pyStrip (pyUpper (pyStrip q))) = false := by
    intro kw hkw
    rw [← Bool.not_eq_true, pyInStr_iff]
    exact h2 kw hkw
  have hS : pyInStr "SELECT ".data (pyStrip (pyUpper (pyStrip q))) = false := by
    rw [show "SELECT ".data = "SELECT".data ++ [' '] from by decide]
    exact hf _ (by simp [sparqlKeywords])
  have hC : pyInStr "CONSTRUCT ".data (pyStrip (pyUpper (pyStrip q))) = false := by
    rw [show "CONSTRUCT ".data = "CONSTRUCT".data ++ [' '] from by decide]
    exact hf _ (by simp [sparqlKeywords])
  have hA : pyInStr "ASK ".data (pyStrip (pyUpper (pyStrip q))) = false := by
    rw [show "ASK ".data = "ASK".data ++ [' '] from by decide]
    exact hf _ (by simp [sparqlKeywords])
  have hD : pyInStr "DESCRIBE ".data (pyStrip (pyUpper (pyStrip q))) = false := by
    rw [show "DESCRIBE ".data = "DESCRIBE".data ++ [' '] from by decide]
    exact hf _ (by simp [sparqlKeywords])
  have hI : pyInStr "INSERT ".data (pyStrip (pyUpper (pyStrip q))) = false := by
    rw [show "INSERT ".data = "INSERT".data ++ [' '] from by decide]
    exact hf _ (by simp [sparqlKeywords])
  have hDE : pyInStr "DELETE ".data (pyStrip (pyUpper (pyStrip q))) = false := by
    rw [show "DELETE ".data = "DELETE".data ++ [' '] from by decide]
    exact hf _ (by simp [sparqlKeywords])
  have hdet : detect_query_type (pyStrip q) = "UNKNOWN" := by
    unfold detect_query_type
    simp [hS, hC, hA, hD, hI, hDE]
  exact execute_custom_rejects_type step dur startTime timeout fr q hne (by omega)
    (by rw [hdet]; decide)

/-- Witness for the amended C10 at the concrete query `"select\t?x"`. -/
theorem C10_select_whitespace_witness :
    (execute_custom_query storeAlwaysOk durZero 0 "select\t?x".data none
      true).1.success = false ∧
    (execute_custom_query storeAlwaysOk durZero 0 "select\t?x".data none
      true).1.error = some "Only SELECT queries are allowed for custom queries" ∧
    (execute_custom_query storeAlwaysOk durZero 0 "select\t?x".data none true).2 = 0 :=
  C10_select_whitespace_amended storeAlwaysOk durZero 0 none true "select\t?x".data
    ⟨'\t', by decide, by decide, by decide⟩ (by decide) (by decide)

/-- A 10007-character query: SELECT followed by a tab, padded with `'A'`s. -/
def qSelectTabLong : List Char := "SELECT\t".data ++ List.replicate 10000 'A'

theorem qSelectTabLong_strip : pyStrip qSelectTabLong = qSelectTabLong := by
  apply pyStrip_eq_self
  · intro c hc
    have : qSelectTabLong.head? = some 'S' := rfl
    rw [this] at hc
    simp only [Option.some.injEq] at hc
    subst hc
    decide
  · intro c hc
    have hgl : (List.replicate 10000 'A').getLast? = some 'A' := by
      rw [← List.head?_reverse, List.reverse_replicate,
        show (10000 : Nat) = 9999 + 1 from rfl, List.replicate_succ]
      rfl
    unfold qSelectTabLong at hc
    rw [List.getLast?_append, hgl] at hc
    simp only [Option.or_some, Option.some.injEq] at hc
    subst hc
    decide

theorem qSelectTabLong_upper : pyUpper qSelectTabLong = qSelectTabLong := by
  unfold pyUpper qSelectTabLong
  rw [List.map_append, List.map_replicate]
  rw [show List.map Char.toUpper "SELECT\t".data = "SELECT\t".data from by decide,
    show Char.toUpper 'A' = 'A' from by decide]

theorem qSelectTabLong_space_not_mem : ' ' ∉ qSelectTabLong := by
  intro hm
  unfold qSelectTabLong at hm
  rw [List.mem_append] at hm
  rcases hm with h | h
  · exact absurd h (by decide)
  · rw [List.mem_replicate] at h
    exact absurd h.2 (by decide)

/-- Claim C10, counterexample: a 10007-character query satisfying the claim's
hypothesis (SELECT followed by a tab, no keyword followed by a literal space)
is rejected as too long, not with the "Only SELECT queries are allowed for
custom queries" error the claim asserts — the length guard runs first. -/
theorem C10_too_long_counterexample :
    (∃ w, isPySpace w = true ∧ w ≠ ' ' ∧
      ("SELECT".data ++ [w]) <:+: pyStrip (pyUpper (pyStrip qSelectTabLong))) ∧
    (∀ kw ∈ sparqlKeywords,
      ¬ ((kw ++ [' ']) <:+: pyStrip (pyUpper (pyStrip qSelectTabLong)))) ∧
    (execute_custom_query storeAlwaysOk durZero 0 qSelectTabLong none true).1.error
      = some "Query too long. Maximum length is 10000 characters" ∧
    (execute_custom_query storeAlwaysOk durZero 0 qSelectTabLong none true).1.error
      ≠ some "Only SELECT queries are allowed for custom queries" := by
  have hu : pyStrip (pyUpper (pyStrip qSelectTabLong)) = qSelectTabLong := by
    rw [qSelectTabLong_strip, qSelectTabLong_upper, qSelectTabLong_strip]
  have hlen : 10000 < (pyStrip qSelectTabLong).length := by
    rw [qSelectTabLong_strip]
    unfold qSelectTabLong
    rw [List.length_append, List.length_replicate,
      show ("SELECT\t".data).length = 7 from by decide]
    norm_num
  have hrej := execute_custom_rejects_too_long storeAlwaysOk durZero 0 none true
    qSelectTabLong hlen
  refine ⟨?_, ?_, hrej.2.1, ?_⟩
  · refine ⟨'\t', by decide, by decide, ?_⟩
    rw [hu]
    refine ⟨[], List.replicate 10000 'A', ?_⟩
    rw [List.nil_append]
    unfold qSelectTabLong
    rw [show "SELECT".data ++ ['\t'] = "SELECT\t".data from by decide]
  · intro kw _ hinf
    have hsp : (' ' : Char) ∈ kw ++ [' '] := by simp
    have := List.Sublist.mem hsp (List.IsInfix.sublist hinf)
    rw [hu] at this
    exact qSelectTabLong_space_not_mem this
  · rw [hrej.2.1]
    intro h
    simp only [Option.some.injEq] at h
    exact absurd h (by decide)

/-! ## Claim C5: result formatting -/

/-- A store response in SPARQL-JSON protocol shape: declared variables under
`head.vars`, bindings under `results.bindings`. -/
def sparqlJsonExample : Json :=
  Json.obj [("head", Json.obj [("vars", Json.arr [Json.str "s"])]),
    ("results", Json.obj [("bindings", Json.arr [Json.obj [("s",
      Json.obj [("type", Json.str "uri"),
        ("value", Json.str "http://example.org/x#Y")])]])])]

/-- Claim C5: on a protocol-shaped SPARQL-JSON result whose declared
variables are `head.vars = ["s"]`, `_format_query_results` emits an empty
`variables` list and an empty formatted binding, because it reads the
variables from `results['vars']` — a key the protocol does not put there —
instead of `head['vars']`; the local-name rule itself behaves as specified. -/
theorem C5_format_results_drops_vars :
    ((format_query_results sparqlJsonExample "SELECT ?s".data).getD "variables"
      Json.null).asArr = [] ∧
    ((sparqlJsonExample.getD "head" Json.null).getD "vars" Json.null).asArr
      = [Json.str "s"] ∧
    ((format_query_results sparqlJsonExample "SELECT ?s".data).getD "bindings"
      Json.null).asArr = [Json.obj []] ∧
    String.mk (extract_local_name "http://example.org/x#Y".data) = "Y" :=
  ⟨rfl, rfl, rfl, rfl⟩

/-! ## Claim C7: health monitoring -/

/-- Embedding of the `ConnectionStatus` dataclass (sparql_service.py 68-75). -/
structure ConnectionStatus where
  is_connected : Bool
  endpoint_url : String
  response_time : Option ℚ := none
  error : Option String := none
  last_checked : Option ℚ := none

/-- Embedding of `OntologyValidationResult` (health_monitoring_service.py 73-82). -/
structure OntologyValidationResult where
  is_valid : Bool
  total_triples : Option Int := none
  class_count : Option Int := none
  property_count : Option Int := none
  individual_count : Option Int := none
  error_message : Option String := none
  validation_time : Option ℚ := none

/-- Embedding of `SystemMetrics` (health_monitoring_service.py 60-71). -/
structure SystemMetrics where
  cpu_usage : ℚ
  memory_usage : ℚ
  memory_total : ℚ
  memory_available : ℚ
  disk_usage : ℚ
  disk_total : ℚ
  disk_free : ℚ
  uptime : ℚ
  timestamp : ℚ

/-- Embedding of `HealthStatus` (health_monitoring_service.py 84-93). -/
structure HealthStatus where
  overall_status : String
  fuseki_connection : ConnectionStatus
  ontology_validation : OntologyValidationResult
  system_metrics : SystemMetrics
  timestamp : ℚ
  errors : List String
  warnings : List String

/-- Python `x and x > b` for an optional float `x` (0.0 and None are falsy). -/
def optTruthyGt (r : Option ℚ) (b : ℚ) : Bool :=
  match r with
  | none => false
  | some v => (v != 0) && (b < v)

/-- Python `x and x < b` for an optional int `x` (0 and None are falsy). -/
def optTruthyLt (r : Option Int) (b : Int) : Bool :=
  match r with
  | none => false
  | some v => (v != 0) && (v < b)

/-- Embedding of `HealthMonitoringService.perform_health_check`
(health_monitoring_service.py lines 316-373).  The three probes (connection,
ontology validation, system metrics) are inputs of the model; the numeric
rendering inside the Python f-string messages is elided, the message prefixes
are kept. -/
def perform_health_check (conn : ConnectionStatus) (onto : OntologyValidationResult)
    (metrics : SystemMetrics) (now : ℚ) : HealthStatus :=
  let errors :=
    (if !conn.is_connected then
      ["Fuseki connection failed: " ++ conn.error.getD "None"] else []) ++
    (if !onto.is_valid then
      ["Ontology validation failed: " ++ onto.error_message.getD "None"] else [])
  let warnings :=
    (if conn.is_connected && optTruthyGt conn.response_time 5 then
      ["Fuseki response time is slow"] else []) ++
    (if onto.is_valid && optTruthyLt onto.total_triples 100 then
      ["Low number of triples in ontology"] else []) ++
    (if 90 < metrics.cpu_usage then ["High CPU usage"] else []) ++
    (if 90 < metrics.memory_usage then ["High memory usage"] else []) ++
    (if 90 < metrics.disk_usage then ["High disk usage"] else [])
  { overall_status :=
      if !errors.isEmpty then "unhealthy"
      else if !warnings.isEmpty then "degraded"
      else "healthy"
    fuseki_connection := conn
    ontology_validation := onto
    system_metrics := metrics
    timestamp := now
    errors := errors
    warnings := warnings }

theorem derive_overall_spec (E W : List String) :
    (E ≠ [] →
      (if !E.isEmpty then "unhealthy"
       else if !W.isEmpty then "degraded" else "healthy") = "unhealthy") ∧
    (E = [] → W ≠ [] →
      (if !E.isEmpty then "unhealthy"
       else if !W.isEmpty then "degraded" else "healthy") = "degraded") ∧
    (E = [] → W = [] →
      (if !E.isEmpty then "unhealthy"
       else if !W.isEmpty then "degraded" else "healthy") = "healthy") := by
  cases E <;> cases W <;> simp

/-- Claim C7: `perform_health_check` derives `overall_status` exactly by — a
non-empty errors list gives "unhealthy" regardless of warnings; no errors and
at least one warning gives "degraded"; no errors and no warnings gives
"healthy". -/
theorem C7_health_derivation (conn : ConnectionStatus)
    (onto : OntologyValidationResult) (metrics : SystemMetrics) (now : ℚ) :
    ((perform_health_check conn onto metrics now).errors ≠ [] →
      (perform_health_check conn onto metrics now).overall_status = "unhealthy") ∧
    ((perform_health_check conn onto metrics now).errors = [] →
      (perform_health_check conn onto metrics now).warnings ≠ [] →
      (perform_health_check conn onto metrics now).overall_status = "degraded") ∧
    ((perform_health_check conn onto metrics now).errors = [] →
      (perform_health_check conn onto metrics now).warnings = [] →
      (perform_health_check conn onto metrics now).overall_status = "healthy") :=
  derive_overall_spec _ _

/-- A connected but slow store, a valid ontology, and calm system metrics. -/
def connSlow : ConnectionStatus :=
  { is_connected := true, endpoint_url := fuseki_endpoint, response_time := some 6,
    last_checked := some 0 }

def ontoOk : OntologyValidationResult :=
  { is_valid := true, total_triples := some 500, class_count := some 10,
    property_count := some 5, individual_count := some 50, validation_time := some 1 }

def metricsCalm : SystemMetrics :=
  { cpu_usage := 10, memory_usage := 20, memory_total := 8, memory_available := 4,
    disk_usage := 30, disk_total := 500, disk_free := 400, uptime := 100,
    timestamp := 0 }

/-- Witness for C7: zero errors and exactly one warning yield "degraded". -/
theorem C7_health_derivation_witness :
    (perform_health_check connSlow ontoOk metricsCalm 0).errors = [] ∧
    (perform_health_check connSlow ontoOk metricsCalm 0).warnings ≠ [] ∧
    (perform_health_check connSlow ontoOk metricsCalm 0).overall_status = "degraded" :=
  ⟨by decide, by decide,
    (C7_health_derivation connSlow ontoOk metricsCalm 0).2.1 (by decide) (by decide)⟩

/-! ## NL-to-SPARQL transformer (ai_sparql_transformer.py) -/

/-- SPARQL template of the `all_persons` intent (ai_sparql_transformer.py lines 14-26). -/
def all_persons_template : String :=
  "\n" ++
  "                PREFIX : <http://www.semanticweb.org/monpc/ontologies/2025/9/untitled-ontology-4#>\n" ++
  "                PREFIX rdf: <http://www.w3.org/1999/02/22-rdf-syntax-ns#>\n" ++
  "                \n" ++
  "                SELECT ?person ?name ?type WHERE \x7b\n" ++
  "                    ?person rdf:type :Person .\n" ++
  "                    OPTIONAL \x7b ?person :hasName ?name . \x7d\n" ++
  "                    OPTIONAL \x7b\n" ++
  "                        ?person rdf:type ?type .\n" ++
  "                        FILTER(?type != :Person)\n" ++
  "                    \x7d\n" ++
  "                \x7d\n" ++
  "                "

/-- SPARQL template of the `search_by_name` intent (ai_sparql_transformer.py lines 34-47). -/
def search_by_name_template : String :=
  "\n" ++
  "                PREFIX : <http://www.semanticweb.org/monpc/ontologies/2025/9/untitled-ontology-4#>\n" ++
  "                PREFIX rdf: <http://www.w3.org/1999/02/22-rdf-syntax-ns#>\n" ++
  "                \n" ++
  "                SELECT ?person ?name ?type WHERE \x7b\n" ++
  "                    ?person rdf:type :Person .\n" ++
  "                    ?person :hasName ?name .\n" ++
  "                    FILTER regex(?name, \"\x7bname\x7d\", \"i\")\n" ++
  "                    OPTIONAL \x7b\n" ++
  "                        ?person rdf:type ?type .\n" ++
  "                        FILTER(?type != :Person)\n" ++
  "                    \x7d\n" ++
  "                \x7d\n" ++
  "                "

/-- SPARQL template of the `by_person_type` intent (ai_sparql_transformer.py lines 55-68). -/
def by_person_type_template : String :=
  "\n" ++
  "                PREFIX : <http://www.semanticweb.org/monpc/ontologies/2025/9/untitled-ontology-4#>\n" ++
  "                PREFIX rdf: <http://www.w3.org/1999/02/22-rdf-syntax-ns#>\n" ++
  "                \n" ++
  "                SELECT ?person ?name ?type WHERE \x7b\n" ++
  "                    ?person rdf:type :Person .\n" ++
  "                    ?person :hasName ?name .\n" ++
  "                    ?person rdf:type :\x7bperson_type\x7d .\n" ++
  "                    OPTIONAL \x7b\n" ++
  "                        ?person rdf:type ?other_type .\n" ++
  "                        FILTER(?other_type != :Person && ?other_type != :\x7bperson_type\x7d)\n" ++
  "                    \x7d\n" ++
  "                \x7d\n" ++
  "                "

/-- Field lookup of `str.format` with keyword arguments only: empty and
all-digit field names are positional (IndexError — no positional arguments
are passed in the source), attribute/index suffixes after a known key would
hit the string value (AttributeError), an unknown key is a KeyError. -/
def resolveField (args : List (String × String)) (field : List Char) :
    Except String String :=
  let base := field.takeWhile (fun c => c != '.' && c != '[')
  if base.isEmpty then
    Except.error "IndexError: Replacement index 0 out of range for positional args tuple"
  else if base.all Char.isDigit then
    Except.error "IndexError: Replacement index out of range for positional args tuple"
  else
    match args.find? (fun p => p.1 == String.mk base) with
    | none => Except.error ("KeyError: " ++ String.mk base)
    | some p =>
      if base.length = field.length then Except.ok p.2
      else Except.error "AttributeError: str object has no such attribute"

/-- Python `!s` / `!r` / `!a` conversions on a string value. -/
def applyConv : Char → String → Except String String
  | 's', v => Except.ok v
  | 'r', v => Except.ok ("\x27" ++ v ++ "\x27")
  | 'a', v => Except.ok ("\x27" ++ v ++ "\x27")
  | _, _ => Except.error "ValueError: Unknown conversion specifier"

/-- Resolution of nested replacement fields inside a format spec (one level
of nesting, as CPython allows): `copying` is `none`, accumulating a nested
field name is `some acc`. -/
def resolveSpecGo (args : List (String × String)) :
    Option (List Char) → List Char → Except String (List Char)
  | none, [] => Except.ok []
  | some _, [] => Except.error "ValueError: unmatched brace in format spec"
  | none, '\x7b' :: rest => resolveSpecGo args (some []) rest
  | none, c :: rest => (fun r => c :: r) <$> resolveSpecGo args none rest
  | some acc, '\x7d' :: rest => do
    let v ← resolveField args acc
    (fun r => v.data ++ r) <$> resolveSpecGo args none rest
  | some _, ':' :: _ => Except.error "ValueError: Max string recursion exceeded"
  | some acc, c :: rest => resolveSpecGo args (some (acc ++ [c])) rest

def resolveSpec (args : List (String × String)) (spec : List Char) :
    Except String (List Char) :=
  resolveSpecGo args none spec

/-- Parsing state of `str.format`: copying literal text, reading a field
name, reading a conversion, or reading a format spec (with brace depth). -/
inductive FmtMode where
  | copy
  | fieldName (acc : List Char)
  | conv (field : List Char) (c : Option Char)
  | spec (field : List Char) (cv : Option Char) (depth : Nat) (acc : List Char)

/-- Embedding of CPython `str.format` markup parsing (`do_markup` /
`parse_field`): `{{` and `}}` are literal braces, a lone `}` is an error, a
`{` opens a replacement field whose name runs to the first `}`, `!` or `:`
(a `{` inside a field name is an error); the format spec runs to the
matching `}` counting nested braces; the field is then resolved (KeyError on
an unknown keyword), nested spec fields are resolved, and the value is
substituted.  The application of a non-empty spec (padding, width) to the
value is not modelled — on the source's templates resolution of the first
field already fails, for every argument list. -/
def formatGo (args : List (String × String)) : FmtMode → List Char → Except String (List Char)
  | .copy, [] => Except.ok []
  | .copy, '\x7b' :: '\x7b' :: rest => (fun r => '\x7b' :: r) <$> formatGo args .copy rest
  | .copy, '\x7d' :: '\x7d' :: rest => (fun r => '\x7d' :: r) <$> formatGo args .copy rest
  | .copy, '\x7d' :: _ =>
    Except.error "ValueError: Single brace encountered in format string"
  | .copy, '\x7b' :: rest => formatGo args (.fieldName []) rest
  | .copy, c :: rest => (fun r => c :: r) <$> formatGo args .copy rest
  | .fieldName _, [] =>
    Except.error "ValueError: expected closing brace before end of string"
  | .fieldName _, '\x7b' :: _ => Except.error "ValueError: unexpected brace in field name"
  | .fieldName acc, '\x7d' :: rest => do
    let v ← resolveField args acc
    (fun r => v.data ++ r) <$> formatGo args .copy rest
  | .fieldName acc, '!' :: rest => formatGo args (.conv acc none) rest
  | .fieldName acc, ':' :: rest => formatGo args (.spec acc none 0 []) rest
  | .fieldName acc, c :: rest => formatGo args (.fieldName (acc ++ [c])) rest
  | .conv _ _, [] => Except.error "ValueError: unmatched brace in format string"
  | .conv field none, c :: rest => formatGo args (.conv field (some c)) rest
  | .conv field (some cv), '\x7d' :: rest => do
    let v ← resolveField args field
    let v2 ← applyConv cv v
    (fun r => v2.data ++ r) <$> formatGo args .copy rest
  | .conv field (some cv), ':' :: rest => formatGo args (.spec field (some cv) 0 []) rest
  | .conv _ (some _), _ :: _ =>
    Except.error "ValueError: expected closing brace after conversion"
  | .spec _ _ _ _, [] => Except.error "ValueError: unmatched brace in format string"
  | .spec field cv depth acc, '\x7d' :: rest =>
    if depth = 0 then do
      let v ← resolveField args field
      let _ ← resolveSpec args acc
      let v2 ← match cv with
        | some c => applyConv c v
        | none => Except.ok v
      (fun r => v2.data ++ r) <$> formatGo args .copy rest
    else formatGo args (.spec field cv (depth - 1) (acc ++ ['\x7d'])) rest
  | .spec field cv depth acc, '\x7b' :: rest =>
    formatGo args (.spec field cv (depth + 1) (acc ++ ['\x7b'])) rest
  | .spec field cv depth acc, c :: rest => formatGo args (.spec field cv depth (acc ++ [c])) rest

/-- Embedding of Python `template.format(**args)`. -/
def pyFormat (template : String) (args : List (String × String)) :
    Except String String :=
  (formatGo args FmtMode.copy template.data).map String.mk

/-- The French-keyword to ontology-type table
(ai_sparql_transformer.py lines 73-77), in insertion order. -/
def type_mapping : List (List Char × List Char) :=
  [("citoyen".data, "Citizen".data), ("citoyens".data, "Citizen".data),
   ("habitant".data, "Citizen".data), ("staff".data, "Staff".data),
   ("employé".data, "Staff".data), ("employés".data, "Staff".data),
   ("touriste".data, "Tourist".data), ("touristes".data, "Tourist".data),
   ("visiteur".data, "Tourist".data)]

/-- The fixed example-name list (ai_sparql_transformer.py line 80). -/
def common_names : List (List Char) :=
  ["alice".data, "bob".data, "charlie".data, "david".data, "eve".data,
   "frank".data, "grace".data]

/-- First alternative of the group matching as a prefix, with the rest of the
string (the alternatives used by the source are mutually exclusive at any
single position). -/
def anyPrefixWithRest (alts : List (List Char)) (l : List Char) : Option (List Char) :=
  match alts with
  | [] => none
  | a :: rest => if a.isPrefixOf l then some (l.drop a.length) else anyPrefixWithRest rest l

/-- An occurrence of one of `alts` reachable without crossing a newline
(`.*(A|B)` between two groups: `.` does not match a newline). -/
def searchGap (alts : List (List Char)) : List Char → Bool
  | [] => alts.any (fun a => a.isEmpty)
  | c :: t => alts.any (fun a => a.isPrefixOf (c :: t)) || (c != '\n' && searchGap alts t)

/-- `re.search(r'.*(A1|A2).*(B1|B2)', s)`: some alternative of the first
group occurs, followed — with no newline in between — by one of the second. -/
def searchSeq2 (alts1 alts2 : List (List Char)) : List Char → Bool
  | [] => false
  | c :: t =>
    (match anyPrefixWithRest alts1 (c :: t) with
     | some rest => searchGap alts2 rest
     | none => false) || searchSeq2 alts1 alts2 t

/-- `re.search(r'.*(A1|A2).*', s)`: plain containment of an alternative. -/
def containsAnyAlt (alts : List (List Char)) (l : List Char) : Bool :=
  alts.any (fun a => pyInStr a l)

/-- `.*$` without MULTILINE: the run of non-newline characters reaches the
end of the string or a single final newline. -/
def dollarTail : List Char → Bool
  | [] => true
  | ['\n'] => true
  | c :: t => c != '\n' && dollarTail t

/-- `re.search(r'^qui.*$', s)`. -/
def startsWithQui (l : List Char) : Bool :=
  "qui".data.isPrefixOf l && dollarTail (l.drop 3)

/-- Embedding of `SimpleSPARQLTransformer.classify_question`
(ai_sparql_transformer.py lines 122-131): the three pattern groups are tried
in insertion order, first matching regex wins, default `all_persons`. -/
def classify_question (q : List Char) : String :=
  if searchSeq2 ["tous".data, "tout".data, "liste".data, "affiche".data]
      ["personne".data, "gens".data, "utilisateur".data] (pyLower q) then "all_persons"
  else if searchSeq2 ["montre".data, "donne".data]
      ["personne".data, "gens".data] (pyLower q) then "all_persons"
  else if startsWithQui (pyLower q) then "all_persons"
  else if containsAnyAlt ["trouve".data, "cherche".data, "recherche".data]
      (pyLower q) then "search_by_name"
  else if containsAnyAlt ["qui est".data, "qui s\x27appelle".data]
      (pyLower q) then "search_by_name"
  else if searchSeq2 ["donne".data, "montre".data]
      ["information".data, "détail".data] (pyLower q) then "search_by_name"
  else if containsAnyAlt ["citoyen".data, "citoyens".data, "habitant".data]
      (pyLower q) then "by_person_type"
  else if containsAnyAlt ["staff".data, "employé".data, "employés".data]
      (pyLower q) then "by_person_type"
  else if containsAnyAlt ["touriste".data, "touristes".data, "visiteur".data]
      (pyLower q) then "by_person_type"
  else "all_persons"

/-- Python `str.split()` (split on whitespace runs, no empty words). -/
def pySplitAux (cur : List Char) : List Char → List (List Char)
  | [] => if cur.isEmpty then [] else [cur.reverse]
  | c :: rest =>
    if isPySpace c then
      if cur.isEmpty then pySplitAux [] rest
      else cur.reverse :: pySplitAux [] rest
    else pySplitAux (c :: cur) rest

def pySplit (l : List Char) : List (List Char) := pySplitAux [] l

def isUpperAlpha (c : Char) : Bool := 'A' ≤ c && c ≤ 'Z'

def isLowerAlpha (c : Char) : Bool := 'a' ≤ c && c ≤ 'z'

/-- Python `str.istitle()` for ASCII: uppercase letters only follow uncased
characters, lowercase letters only follow cased ones, and at least one cased
character occurs. -/
def istitleAux (prevCased found : Bool) : List Char → Bool
  | [] => found
  | c :: rest =>
    if isUpperAlpha c then !prevCased && istitleAux true true rest
    else if isLowerAlpha c then prevCased && istitleAux true true rest
    else istitleAux false found rest

def pyIstitle (l : List Char) : Bool := istitleAux false false l

/-- Python `str.capitalize()` (ASCII). -/
def pyCapitalize : List Char → List Char
  | [] => []
  | c :: rest => c.toUpper :: rest.map Char.toLower

/-- `(?:\?|$|\.)` — the terminator after the non-greedy capture. -/
def captureTerminator : List Char → Bool
  | [] => true
  | '?' :: _ => true
  | '.' :: _ => true
  | ['\n'] => true
  | _ => false

/-- The non-greedy `(.+?)` capture followed by the terminator: at least one
non-newline character, stopping at the earliest terminator position. -/
def captureTry (acc : List Char) : List Char → Option (List Char)
  | [] => none
  | c :: rest =>
    if c = '\n' then none
    else if captureTerminator rest then some (acc ++ [c])
    else captureTry (acc ++ [c]) rest

/-- `re.search(r'KW (.+?)(?:\?|$|\.)', s)`: leftmost occurrence of the
keyword from which a capture with terminator succeeds. -/
def captureAfter (kw : List Char) : List Char → Option (List Char)
  | [] => none
  | c :: t =>
    if kw.isPrefixOf (c :: t) then
      match captureTry [] ((c :: t).drop kw.length) with
      | some cap => some cap
      | none => captureAfter kw t
    else captureAfter kw t

/-- Embedding of `SimpleSPARQLTransformer.extract_name`
(ai_sparql_transformer.py lines 82-110): first title-cased word longer than
two characters that is not an interrogative, else a known example name, else
a regex capture after "qui est", "qui s'appelle", "trouve" or "cherche",
else the empty string. -/
def extract_name (question : List Char) : List Char :=
  match (pySplit question).find? (fun w =>
      pyIstitle w && decide (2 < w.length) &&
      !(["qui".data, "quel".data, "quelle".data, "quels".data,
         "quelles".data].contains (pyLower w))) with
  | some w => w
  | none =>
    match common_names.find? (fun nm => pyInStr nm (pyLower question)) with
    | some nm => pyCapitalize nm
    | none =>
      match captureAfter "qui est ".data (pyLower question) with
      | some cap => pyCapitalize (pyStrip cap)
      | none =>
        match captureAfter "qui s\x27appelle ".data (pyLower question) with
        | some cap => pyCapitalize (pyStrip cap)
        | none =>
          match captureAfter "trouve ".data (pyLower question) with
          | some cap => pyCapitalize (pyStrip cap)
          | none =>
            match captureAfter "cherche ".data (pyLower question) with
            | some cap => pyCapitalize (pyStrip cap)
            | none => []

/-- Embedding of `SimpleSPARQLTransformer.extract_person_type`
(ai_sparql_transformer.py lines 112-120). -/
def extract_person_type (question : List Char) : List Char :=
  match type_mapping.find? (fun p => pyInStr p.1 (pyLower question)) with
  | some p => p.2
  | none => []

/-- Embedding of `SimpleSPARQLTransformer.generate_sparql`
(ai_sparql_transformer.py lines 133-153).  A Python exception raised by
`str.format` is an `Except.error`. -/
def generate_sparql (question : List Char) : Except String String :=
  if classify_question question = "search_by_name" then
    if !(extract_name question).isEmpty then
      pyFormat search_by_name_template [("name", String.mk (extract_name question))]
    else Except.ok all_persons_template
  else if classify_question question = "by_person_type" then
    if !(extract_person_type question).isEmpty then
      pyFormat by_person_type_template
        [("person_type", String.mk (extract_person_type question))]
    else Except.ok all_persons_template
  else Except.ok all_persons_template

set_option maxRecDepth 8192 in
/-- Claim C1: `generate_sparql` does NOT return normally on every question.
On the question "Trouve Alice" — one of the module's own `__main__` test
inputs — classification yields `search_by_name` and a non-empty name
("Trouve") is substituted into the template, but `str.format` parses the
template's SPARQL braces as replacement fields and raises
`KeyError('\n                    ?person rdf')`; the same happens on every
input reaching the `search_by_name` or `by_person_type` format call.  The
default `all_persons` path does return its template verbatim. -/
theorem C1_generate_sparql_raises :
    generate_sparql "Trouve Alice".data
      = Except.error "KeyError: \n                    ?person rdf" ∧
    generate_sparql "Qui sont toutes les personnes ?".data
      = Except.ok all_persons_template :=
  ⟨rfl, rfl⟩
